import Mathlib

/-!
Shallow embedding of the simulation core of `src/components/GameEngine.tsx`
(Cosmic Drifter: Frontier Systems).  JavaScript numbers are modelled as
rationals; `Math.random()` is modelled as an injectable stream `ℕ → ℚ`
advanced by an explicit counter (the spec itself demands an injectable
random source).  The constants module `../constants` (PHYSICS, ENTITY_SIZE,
ENEMY_STATS, WEAPONS) is part of the repository but absent from `src/`, so
its numeric values are passed as parameters / modelled records below.
-/

namespace CosmicDrifter

/-- JavaScript `Math.trunc` (rounding toward zero) on rationals. -/
def ratTrunc (q : ℚ) : ℤ := if 0 ≤ q then ⌊q⌋ else ⌈q⌉

/-- JavaScript remainder `a % b` (sign follows the dividend):
`a % b = a - b * Math.trunc (a / b)`. -/
def jsRem (a b : ℚ) : ℚ := a - b * (ratTrunc (a / b) : ℚ)

/-- JavaScript `String.prototype.includes` via `splitOn`: `s` contains `sub`
iff splitting on `sub` yields more than one piece. -/
def jsIncludes (s sub : String) : Bool := (s.splitOn sub).length > 1

/-- `LOGICAL_HEIGHT` constant of GameEngine.tsx (line 29). -/
def LOGICAL_HEIGHT : ℚ := 600

/-- Weather kinds (`WeatherType` in types.ts). -/
inductive WeatherKind
  | clear | rain | acid_rain | snow | ash | sandstorm
  deriving DecidableEq, Repr

/-- Weather phases (`weatherState` field of the game state). -/
inductive WeatherPhase
  | clear | buildup | active | fading
  deriving DecidableEq, Repr

/-- Biome styles (`BiomeStyle` in types.ts). -/
inductive Biome
  | dunes | crags | spire | plateau
  deriving DecidableEq, Repr

/-- Enemy archetypes (`EnemyArchetype` in types.ts). -/
inductive Archetype
  | crawler | sentinel | dasher | hornet | guardian | neutral | sandworm
  | shielder | spore
  deriving DecidableEq, Repr

/-- Enemy AI states (`aiState` field in types.ts). -/
inductive AiState
  | idle | alert | chase | attack | flee | charge | phase1 | phase2
  deriving DecidableEq, Repr

/-- The fields of `PlanetData` (types.ts) consumed by the simulation core. -/
structure PlanetData where
  name : String
  gravity : ℚ
  atmosphereColor : String
  groundColor : String
  enemyDensity : ℚ
  allowedBiomes : List Biome
  weatherTraits : List WeatherKind
  vegetationDensity : ℚ
  weatherVolatility : ℚ
  deriving Repr

/-- `getGroundHeightAt` (GameEngine.tsx lines 269-284): linear interpolation
between the two bracketing terrain samples, indices clamped into
`[0, terrain.length - 1]`; empty terrain yields `LOGICAL_HEIGHT`.
`terrain[i]` is modelled with `List.getD` at the already-clamped index. -/
def getGroundHeightAt (terrain : List ℚ) (x : ℚ) : ℚ :=
  if terrain.length = 0 then LOGICAL_HEIGHT
  else
    let segmentWidth : ℚ := 50
    let index : ℤ := ⌊x / segmentWidth⌋
    let t : ℚ := jsRem x segmentWidth / segmentWidth
    let i1 : ℤ := max 0 (min index (terrain.length - 1))
    let i2 : ℤ := max 0 (min (index + 1) (terrain.length - 1))
    let h1 := terrain.getD i1.toNat 0
    let h2 := terrain.getD i2.toNat 0
    h1 + (h2 - h1) * t

/-- The two clamped sample indices read by `getGroundHeightAt`. -/
def groundSampleIndices (terrain : List ℚ) (x : ℚ) : ℤ × ℤ :=
  let index : ℤ := ⌊x / 50⌋
  (max 0 (min index (terrain.length - 1)), max 0 (min (index + 1) (terrain.length - 1)))

/-- Weather-controller state (fields `timeOfDay`, `weatherState`,
`currentWeather`, `weatherIntensity`, `weatherTimer` of the game state). -/
structure WeatherSt where
  timeOfDay : ℚ
  phase : WeatherPhase
  current : WeatherKind
  intensity : ℚ
  timer : ℚ
  deriving Repr

/-- The weather state machine of `updateWeather` (GameEngine.tsx lines
351-384): decrements the phase timer by `dt` (when `weatherVolatility > 0`)
and performs a phase transition only when the decremented timer is `≤ 0`.
Returns the new phase, current weather kind, timer, and random counter. -/
def weatherMachine (p : PlanetData) (rnd : ℕ → ℚ) (dt : ℚ) (w : WeatherSt)
    (n : ℕ) : WeatherPhase × WeatherKind × ℚ × ℕ :=
  if 0 < p.weatherVolatility then
    if w.timer - dt ≤ 0 then
      match w.phase with
      | .clear =>
          let triggerChance := (1/2 : ℚ) * p.weatherVolatility
          if rnd n < triggerChance ∧ 0 < p.weatherTraits.length then
            let badWeather := p.weatherTraits.filter (· ≠ .clear)
            if 0 < badWeather.length then
              let kind := badWeather.getD (⌊rnd (n+1) * badWeather.length⌋).toNat .clear
              (.buildup, kind, 300, n+2)
            else (.clear, w.current, 500, n+1)
          else (.clear, w.current, 500 + rnd (n+1) * 500, n+2)
      | .buildup => (.active, w.current, 600 + rnd n * 1000 * p.weatherVolatility, n+1)
      | .active => (.fading, w.current, 300, n)
      | .fading => (.clear, .clear, 500, n)
    else (w.phase, w.current, w.timer - dt, n)
  else (.clear, .clear, w.timer, n)

/-- The state-mutating core of `updateWeather` (GameEngine.tsx lines
343-391): time-of-day advance and wrap, the phase machine, then the
intensity ramp and the final clamp of intensity into `[0, 1]`.  The ambient
weather-particle section (lines 393-417) touches only the particle list,
never this state, and is omitted. -/
def updateWeatherCore (p : PlanetData) (rnd : ℕ → ℚ) (dt : ℚ) (w : WeatherSt)
    (n : ℕ) : WeatherSt × ℕ :=
  let tod0 := w.timeOfDay + dt * (1/10000)
  let tod := if 1 < tod0 then 0 else tod0
  let m := weatherMachine p rnd dt w n
  let phase := m.1
  let inten0 :=
    match phase with
    | .buildup => w.intensity + (1/500) * dt
    | .active => min 1 (w.intensity + (1/1000) * dt)
    | .fading => w.intensity - (1/500) * dt
    | .clear => max 0 (w.intensity - (1/200) * dt)
  let inten := max 0 (min 1 inten0)
  (⟨tod, phase, m.2.1, inten, m.2.2.1⟩, m.2.2.2)

/-- Mission progress relevant to the boss-spawn trigger: the collected-core
counter, the required core count, and the `bossActive` latch.
`bossSpawnCount` counts how many times `spawnBoss` actually pushed the
guardian entity (it is the length of the guardian spawn event trace). -/
structure MissionProgress where
  coresCollected : ℕ
  totalCoresNeeded : ℕ
  bossActive : Bool
  bossSpawnCount : ℕ
  deriving DecidableEq, Repr

/-- `spawnBoss` (GameEngine.tsx line 315): returns immediately when
`bossActive` is already set; otherwise sets the latch and spawns the
guardian (counted in `bossSpawnCount`). -/
def spawnBoss (s : MissionProgress) : MissionProgress :=
  if s.bossActive then s
  else { s with bossActive := true, bossSpawnCount := s.bossSpawnCount + 1 }

/-- The core-pickup branch of the loot loop (GameEngine.tsx line 574):
increments `coresCollected` and calls `spawnBoss` once the counter has
reached `totalCoresNeeded`. -/
def corePickup (s : MissionProgress) : MissionProgress :=
  let s1 := { s with coresCollected := s.coresCollected + 1 }
  if s1.totalCoresNeeded ≤ s1.coresCollected then spawnBoss s1 else s1

/-- Mission-start progress state: no cores collected, boss not active. -/
def initialProgress (needed : ℕ) : MissionProgress :=
  ⟨0, needed, false, 0⟩

/-- An axis-aligned box (`pos` and `size` of an entity). -/
structure Box where
  x : ℚ
  y : ℚ
  w : ℚ
  h : ℚ
  deriving DecidableEq, Repr

/-- `checkCollision` (GameEngine.tsx lines 286-291): the four-inequality
AABB overlap test. -/
def checkCollision (r1 r2 : Box) : Bool :=
  decide (r1.x < r2.x + r2.w ∧ r1.x + r1.w > r2.x ∧
    r1.y < r2.y + r2.h ∧ r1.y + r1.h > r2.y)

/-- `checkCollisionInflated` (GameEngine.tsx lines 293-295): pads the
projectile's rectangle by `padding` before the AABB test. -/
def checkCollisionInflated (proj target : Box) (padding : ℚ) : Bool :=
  decide (proj.x - padding < target.x + target.w ∧
    proj.x + proj.w + padding > target.x ∧
    proj.y - padding < target.y + target.h ∧
    proj.y + proj.h + padding > target.y)

/-- Modelled from the spec: the `PHYSICS` constants record of the missing
`src/constants.ts` module.  The spec (§4.2) only states that damage sets a
"fixed-duration" invulnerability timer and that gravity scales by
`config.gravity`, so the numeric values are carried as parameters. -/
structure PhysicsConsts where
  gravity : ℚ
  invulnerabilityFrames : ℚ
  deriving Repr

/-- The player-state fields touched by the contact-damage branch. -/
structure PlayerSt where
  posX : ℚ
  posY : ℚ
  sizeX : ℚ
  sizeY : ℚ
  velX : ℚ
  velY : ℚ
  health : ℚ
  hitTimer : ℚ
  deriving DecidableEq, Repr

def PlayerSt.box (p : PlayerSt) : Box := ⟨p.posX, p.posY, p.sizeX, p.sizeY⟩

/-- The enemy-state fields read or written by the combat fragments. -/
structure EnemySt where
  posX : ℚ
  posY : ℚ
  sizeX : ℚ
  sizeY : ℚ
  velX : ℚ
  velY : ℚ
  health : ℚ
  hitTimer : ℚ
  archetype : Archetype
  aiState : AiState
  facingRight : Bool
  isBurrowed : Bool
  isGrounded : Bool
  marked : Bool
  deriving DecidableEq, Repr

def EnemySt.box (e : EnemySt) : Box := ⟨e.posX, e.posY, e.sizeX, e.sizeY⟩

/-- The projectile-state fields used by hit resolution.  `pierceCount`
models the optional JS field with `0` for `undefined` (the source reads it
as `proj.pierceCount && proj.pierceCount > 0`). -/
structure ProjSt where
  posX : ℚ
  posY : ℚ
  sizeX : ℚ
  sizeY : ℚ
  velX : ℚ
  velY : ℚ
  pierceCount : ℕ
  isExplosive : Bool
  marked : Bool
  deriving DecidableEq, Repr

def ProjSt.box (p : ProjSt) : Box := ⟨p.posX, p.posY, p.sizeX, p.sizeY⟩

/-- Modelled from the spec: one entry of the `WEAPONS` table of the missing
`src/constants.ts` module; only the fields read by hit resolution are kept
(`damageMult`, `knockback`, weapon profiles per §4.4 of the spec). -/
structure WeaponStats where
  damageMult : ℚ
  knockback : ℚ
  deriving Repr

/-- The player-enemy contact-damage branch (GameEngine.tsx line 553): on
AABB overlap with a non-neutral enemy while the invulnerability timer is
`≤ 0`, subtract 15 health, set the timer to `PHYSICS.INVULNERABILITY_FRAMES`,
apply the knockback velocity, and set the hit-stop to 5.  Returns the new
player state and hit-stop value. -/
def playerContactHit (phys : PhysicsConsts) (player : PlayerSt) (ent : EnemySt)
    (hitStop : ℚ) : PlayerSt × ℚ :=
  if checkCollision player.box ent.box ∧ ent.archetype ≠ .neutral then
    if player.hitTimer ≤ 0 then
      ({ player with
          health := player.health - 15,
          hitTimer := phys.invulnerabilityFrames,
          velX := (if player.posX < ent.posX then -1 else 1) * 10,
          velY := -5 }, 5)
    else (player, hitStop)
  else (player, hitStop)

/-- Result of resolving one player projectile against one enemy. -/
structure HitOutcome where
  enemy : EnemySt
  proj : ProjSt
  blocked : Bool
  explosionTriggered : Bool
  deriving DecidableEq, Repr

/-- The per-enemy body of player-projectile hit resolution (GameEngine.tsx
lines 560-562).  `w` is `WEAPONS[proj.weaponType || 'blaster']`, `dmgMult`
the player upgrade damage multiplier (line 43), and `dir` stands for
`(Math.cos a, Math.sin a)` of `a = Math.atan2(proj.vel.y, proj.vel.x)` (the
unit direction of the projectile velocity): the knockback direction does
not affect any claim, so the trigonometry is carried as a parameter.  The
explosive branch calls `spawnExplosion`, whose area burst is resolved over
the whole enemy list (line 311) outside this single-enemy fragment; it is
signalled in `explosionTriggered`. -/
def projectileHitEnemy (w : WeaponStats) (dmgMult : ℚ) (dir : ℚ × ℚ)
    (proj : ProjSt) (enemy : EnemySt) : HitOutcome :=
  if ¬enemy.marked ∧ ¬proj.marked ∧ checkCollisionInflated proj.box enemy.box 8 then
    if (enemy.archetype = .shielder ∧ enemy.aiState = .chase ∧
          ((enemy.facingRight = true ∧ proj.velX < 0) ∨
           (enemy.facingRight = false ∧ 0 < proj.velX)))
        ∨ (enemy.archetype = .sandworm ∧ enemy.isBurrowed = true) then
      ⟨enemy, { proj with marked := true }, true, false⟩
    else if proj.isExplosive then
      ⟨enemy, { proj with marked := true }, false, true⟩
    else
      let finalDmg : ℤ := ⌈10 * w.damageMult * dmgMult⌉
      let kbStrength := if w.knockback = 0 then 2 else w.knockback
      let enemy' : EnemySt :=
        { enemy with
            health := enemy.health - (finalDmg : ℚ),
            hitTimer := 5,
            aiState := if enemy.aiState = .idle then .chase else enemy.aiState,
            velX := enemy.velX + dir.1 * kbStrength,
            velY := enemy.velY + dir.2 * (kbStrength * (1/2)),
            isGrounded := false }
      let proj' :=
        if 0 < proj.pierceCount then
          { proj with pierceCount := proj.pierceCount - 1 }
        else { proj with marked := true }
      ⟨enemy', proj', false, false⟩
  else ⟨enemy, proj, false, false⟩

/-- Enemy rarity (`rarity` field in types.ts). -/
inductive Rarity
  | common | elite
  deriving DecidableEq, Repr

/-- Modelled from the spec: one row of the `ENEMY_STATS` table of the
missing `src/constants.ts` module.  The spec gives no numeric hp/score
values, so rows are arbitrary; every C5 theorem is proved for an arbitrary
table. -/
structure EnemyStatRow where
  hp : ℚ
  score : ℚ
  deriving DecidableEq, Repr

/-- A full `ENEMY_STATS` table. -/
def StatTable : Type := Archetype → EnemyStatRow

/-- The archetype roll of `spawnEnemy` (GameEngine.tsx line 321). -/
def rollArchetype (r : ℚ) : Archetype :=
  if 94/100 < r then .neutral
  else if 84/100 < r then .dasher
  else if 72/100 < r then .sentinel
  else if 58/100 < r then .hornet
  else if 48/100 < r then .shielder
  else if 42/100 < r then .sandworm
  else if 30/100 < r then .spore
  else .crawler

/-- The stats lookup chain of `spawnEnemy` (GameEngine.tsx lines 323-324):
starts from `ENEMY_STATS.CRAWLER` and reassigns for the explicitly listed
archetypes; `guardian` is not listed there, so it falls back to the crawler
row. -/
def statsFor (tbl : StatTable) (arch : Archetype) : EnemyStatRow :=
  if arch = .guardian then tbl .crawler else tbl arch

/-- The archetype, rarity and health computed by `spawnEnemy` (GameEngine.tsx
lines 316-332), with the random counter advanced per the source's draw
order: archetype roll; altitude draw for hornet/spore; the elite roll (only
without a forced rarity and for non-neutral archetypes, elite when the draw
exceeds 0.85, health then doubled); the size-variation draw; the sandworm
override (forced elite, health multiplied by 1.5, burrowed); and the
cosmetic draws of the pushed entity literal (id, variant, animOffset, and
attackTimer for non-shielders). -/
def spawnEnemyCore (tbl : StatTable) (density : ℚ) (rnd : ℕ → ℚ) (n : ℕ)
    (forcedArch : Option Archetype) (forcedRarity : Option Rarity) :
    Archetype × Rarity × ℤ × ℕ :=
  let arch := forcedArch.getD (rollArchetype (rnd n))
  let n2 := if arch = .hornet ∨ arch = .spore then n + 2 else n + 1
  let row := statsFor tbl arch
  let scaled0 : ℤ := ⌊row.hp * (1 + density * (5/100))⌋
  let rarity1 : Rarity :=
    if forcedRarity = none ∧ arch ≠ .neutral then
      (if 85/100 < rnd n2 then .elite else .common)
    else forcedRarity.getD .common
  let n3 := if forcedRarity = none ∧ arch ≠ .neutral then n2 + 1 else n2
  let hp1 : ℤ := if rarity1 = .elite then ⌊(scaled0 : ℚ) * 2⌋ else scaled0
  let rarity2 := if arch = .sandworm then Rarity.elite else rarity1
  let hp2 : ℤ := if arch = .sandworm then ⌊(hp1 : ℚ) * (3/2)⌋ else hp1
  (arch, rarity2, hp2, n3 + 4 + (if arch = .shielder then 0 else 1))

/-- The death score award (GameEngine.tsx line 554): the archetype's base
score with the JS `|| 50` default, doubled for elite rarity. -/
def deathScore (row : EnemyStatRow) (rarity : Rarity) : ℚ :=
  let baseScore := if row.score = 0 then 50 else row.score
  if rarity = .elite then baseScore * 2 else baseScore

/-- The core-guard health (GameEngine.tsx line 1320): twice the archetype's
base hp (JS `|| 30` default), with no enemy-density scaling. -/
def coreGuardHp (row : EnemyStatRow) : ℚ :=
  (if row.hp = 0 then 30 else row.hp) * 2

/-- Modelled from the spec: a representative `ENEMY_STATS` table with
positive stats, used only to instantiate witnesses; no C5 verdict depends
on these numbers. -/
def sampleStats : StatTable := fun a =>
  match a with
  | .crawler => ⟨30, 50⟩
  | .sentinel => ⟨40, 100⟩
  | .dasher => ⟨35, 120⟩
  | .hornet => ⟨25, 80⟩
  | .guardian => ⟨500, 1000⟩
  | .neutral => ⟨20, 10⟩
  | .sandworm => ⟨40, 150⟩
  | .shielder => ⟨60, 130⟩
  | .spore => ⟨15, 40⟩

/-- The per-enemy AI/physics step of the update loop (GameEngine.tsx lines
532-551) specialised to a lone `neutral` enemy: the generic aggro rule and
all hostile-archetype branches are statically skipped for `neutral`, the
squad-separation inner loop is a no-op when no other enemy exists, and
`distToPlayer` / `isPlayerLeft` are unread on this path.  Executed
statements, in source order: `vel.x *= 0.95`; hit-timer decrement; the
neutral wander roll (a second draw and an upward hop only when the first
draw is `< 0.02`); the neutral ground snap; gravity `vel.y +=
PHYSICS.GRAVITY * planet.gravity * dt`; the speed clamp (skipped when
`maxSpd < |vel.x| < 15`, with the `|| 2` default for a zero speed stat);
position integration; facing update; the generic ground snap.  Returns the
new enemy state and random counter.  (`speedStat` is
`ENEMY_STATS.NEUTRAL.speed` from the missing constants module.) -/
def neutralEnemyStep (phys : PhysicsConsts) (speedStat : ℚ) (p : PlanetData)
    (terrain : List ℚ) (rnd : ℕ → ℚ) (n : ℕ) (dt : ℚ) (e : EnemySt) :
    EnemySt × ℕ :=
  let gY := getGroundHeightAt terrain (e.posX + e.sizeX / 2)
  let v1 := e.velX * (95/100)
  let hit1 := if 0 < e.hitTimer then e.hitTimer - dt else e.hitTimer
  let wander := rnd n < 2/100
  let v2 := if wander then (rnd (n+1) - 1/2) * (3/2) else v1
  let vyW := if wander ∧ e.isGrounded then (-2 : ℚ) else e.velY
  let n2 := if wander then n + 2 else n + 1
  let snapA := gY ≤ e.posY + e.sizeY
  let py3 := if snapA then gY - e.sizeY else e.posY
  let vy3 := if snapA then 0 else vyW
  let vy4 := vy3 + phys.gravity * p.gravity * dt
  let maxSpd := if speedStat = 0 then 2 else speedStat
  let v5 := if maxSpd < |v2| ∧ |v2| < 15 then v2 else max (min v2 maxSpd) (-maxSpd)
  let px6 := e.posX + v5 * dt
  let py6 := py3 + vy4 * dt
  let snapB := gY ≤ py6 + e.sizeY
  ({ e with
      posX := px6,
      posY := if snapB then gY - e.sizeY else py6,
      velX := v5,
      velY := if snapB then 0 else vy4,
      hitTimer := hit1,
      facingRight := 0 < v5,
      isGrounded := snapB }, n2)

/-- Hazard kinds (`HazardType` in types.ts); `hnone` is the source's
`'none'`. -/
inductive HazardKind
  | lava | acid | spikes | ice | geyser | electric | hnone
  deriving DecidableEq, Repr

/-- `Math.sin` / `Math.cos` carried as an oracle: the map generator's dunes
branch is the only trigonometry consumer, and every claim about it needs
only `|sin| ≤ 1` and `|cos| ≤ 1`, so the two functions are parameters
rather than transcendental definitions (keeping the generator executable
over the rationals). -/
structure TrigOracle where
  sin : ℚ → ℚ
  cos : ℚ → ℚ

/-- Both oracle components are bounded by 1 in absolute value (true of the
real sine and cosine). -/
def TrigOracle.Bounded (t : TrigOracle) : Prop :=
  (∀ x, |t.sin x| ≤ 1) ∧ (∀ x, |t.cos x| ≤ 1)

/-- Every stream value is in `[0, 1)`, as `Math.random()` guarantees. -/
def RndInRange (rnd : ℕ → ℚ) : Prop := ∀ k, 0 ≤ rnd k ∧ rnd k < 1

/-- `planet.allowedBiomes[Math.floor(Math.random() * length)]`
(GameEngine.tsx line 1280): an empty list yields JS `undefined`, modelled
as `none`. -/
def biomePick (bs : List Biome) (r : ℚ) : Option Biome :=
  bs.get? (⌊r * bs.length⌋).toNat

/-- The per-style height delta rule (GameEngine.tsx line 1281), returning
the delta and the advanced random counter (only crags, plateau-on-15th and
spire consume a draw; an undefined style matches no branch and leaves
`delta = 0`). -/
def styleDelta (trig : TrigOracle) (rnd : ℕ → ℚ) (style : Option Biome)
    (i n : ℕ) : ℚ × ℕ :=
  match style with
  | some .dunes => (trig.sin (i * (1/10)) * 5 + trig.cos (i * (5/100)) * 2, n)
  | some .crags => ((rnd n - 1/2) * 15, n + 1)
  | some .plateau =>
      if i % 15 = 0 then (((⌊rnd n * 3⌋ : ℚ) - 1) * 40, n + 1) else (0, n)
  | some .spire =>
      if i % 5 = 0 then ((rnd n - 1/2) * 30, n + 1) else ((rnd n - 1/2) * 5, n + 1)
  | none => (0, n)

/-- The style-biased hazard kind of the 6% hazard roll (GameEngine.tsx
lines 1291-1302), including the planet-color fallback heuristic.  Only
crags is draw-free; the result is never `spikes` or `ice`. -/
def hazardKindRoll (p : PlanetData) (rnd : ℕ → ℚ) (style : Option Biome)
    (n : ℕ) : HazardKind × ℕ :=
  let first : HazardKind × ℕ :=
    match style with
    | some .dunes => (if 7/10 < rnd n then .geyser else .hnone, n + 1)
    | some .plateau => (if 8/10 < rnd n then .electric else .hnone, n + 1)
    | some .crags => (.lava, n)
    | some .spire => (if 1/2 < rnd n then .acid else .electric, n + 1)
    | none => (.hnone, n)
  if first.1 = .hnone then
    (if jsIncludes p.groundColor "441111" = true ∨ jsIncludes p.name "Lava" = true
      then .lava
     else if jsIncludes p.atmosphereColor "0a2a0a" = true then .acid
     else .hnone, first.2)
  else first

/-- The 6% hazard block of the generator loop (GameEngine.tsx lines
1286-1308): only on segments `10 < i < segments - 10`, a sub-6% draw raises
the local ground by 40 (re-clamped to the 550 ceiling) and rolls a hazard
kind; a non-`none` kind is placed (`isHazard`).  The raise happens even
when the kind ends up `none` and nothing is placed.  Returns (height,
counter, placed kind). -/
def hazardPhase (p : PlanetData) (rnd : ℕ → ℚ) (style : Option Biome)
    (i : ℕ) (h : ℚ) (n : ℕ) : ℚ × ℕ × Option HazardKind :=
  if 10 < i ∧ i < 340 then
    if rnd n < 6/100 then
      let h5 := h + 40
      let h6 := if 550 < h5 then (550 : ℚ) else h5
      let hk := hazardKindRoll p rnd style (n + 1)
      if hk.1 = .hnone then (h6, hk.2, none) else (h6, hk.2, some hk.1)
    else (h, n + 1, none)
  else (h, n, none)

/-- The generator's running state: current height and biome style, random
counter, and the accumulated terrain samples, per-segment styles, hazard
strips (strip x and kind; the width is always one segment), and the
segment indices that received vegetation / decoration. -/
structure GenState where
  height : ℚ
  styleCur : Option Biome
  n : ℕ
  terrain : List ℚ
  styles : List (Option Biome)
  hazards : List (ℚ × HazardKind)
  vegSegs : List ℕ
  decoSegs : List ℕ
  deriving Repr

/-- The post-hazard tail of one generator iteration (GameEngine.tsx lines
1310-1316), taking the main-hazard outcome as an argument: the crags
floor-spikes roll and the cold-spire ice strip (neither sets `isHazard`);
the terrain push; the decoration roll; and the vegetation roll gated by
`isHazard`, with density `styleDensity · vegetationDensity · 1.5`.  Draws
that feed only cosmetic fields advance the counter without being recorded:
2-3 for a placed decoration (a type roll only for crags/undefined styles,
then x offset and size) and 10 for a placed plant (isTitan, shape roll,
height, width, stem color, color roll, x offset, sway speed, sway amount,
variant). -/
def genTail (p : PlanetData) (rnd : ℕ → ℚ) (i : ℕ) (style : Option Biome)
    (mainHz : Option HazardKind) (hNew : ℚ) (n3 : ℕ) (s : GenState) : GenState :=
  let isHazard := mainHz.isSome
  let spikesPath := isHazard = false ∧ style = some .crags
  let n4 := if spikesPath then n3 + 1 else n3
  let spikesPlaced := spikesPath ∧ rnd n3 < 1/10
  let icePlaced := isHazard = false ∧ style = some .spire ∧
    jsIncludes p.atmosphereColor "001133" = true
  let n5 := if isHazard = false then n4 + 1 else n4
  let decoPlaced := isHazard = false ∧ 85/100 < rnd n4
  let n6 := if decoPlaced then
      (match style with
       | some .dunes => n5 + 2 | some .spire => n5 + 2 | some .plateau => n5 + 2
       | _ => n5 + 3)
    else n5
  let vegDensity : ℚ := match style with
    | some .dunes => 2/10 | some .spire => 3/10 | some .plateau => 7/10
    | _ => 5/10
  let effVeg := vegDensity * (p.vegetationDensity * (3/2))
  let n7 := if isHazard = false then n6 + 1 else n6
  let vegPlaced := isHazard = false ∧ rnd n6 < effVeg
  let n8 := if vegPlaced then n7 + 10 else n7
  { height := hNew,
    styleCur := style,
    n := n8,
    terrain := s.terrain ++ [hNew],
    styles := s.styles ++ [style],
    hazards := s.hazards
      ++ (match mainHz with | some k => [((i : ℚ) * 50, k)] | none => [])
      ++ (if spikesPlaced then [((i : ℚ) * 50, HazardKind.spikes)] else [])
      ++ (if icePlaced then [((i : ℚ) * 50, HazardKind.ice)] else []),
    vegSegs := s.vegSegs ++ (if vegPlaced then [i] else []),
    decoSegs := s.decoSegs ++ (if decoPlaced then [i] else []) }

/-- The height clamp of the generator loop (GameEngine.tsx line 1282):
clamp `h + delta` into `[minH, maxH] = [100, 550]`, then nudge by `+2`
below 150 and `-2` above `LOGICAL_HEIGHT - 150 = 450`. -/
def bandStep (h delta : ℚ) : ℚ :=
  let h2 := max 100 (min (LOGICAL_HEIGHT - 50) (h + delta))
  let h3 := if h2 < 150 then h2 + 2 else h2
  if 450 < h3 then h3 - 2 else h3

/-- One iteration of the map-generation loop (GameEngine.tsx lines
1279-1317) for segment `i`: biome re-pick every 80 segments; style delta;
the `bandStep` height clamp; the 6% hazard block; then the `genTail`
placements. -/
def mapGenStep (p : PlanetData) (trig : TrigOracle) (rnd : ℕ → ℚ) (i : ℕ)
    (s : GenState) : GenState :=
  let style := if i % 80 = 0 then biomePick p.allowedBiomes (rnd s.n) else s.styleCur
  let n1 := if i % 80 = 0 then s.n + 1 else s.n
  let d := styleDelta trig rnd style i n1
  let hz := hazardPhase p rnd style i (bandStep s.height d.1) d.2
  genTail p rnd i style hz.2.2 hz.1 hz.2.1 s

/-- The generator's start state (GameEngine.tsx line 1278): height
`LOGICAL_HEIGHT - 150 = 450`, current style `allowedBiomes[0]`. -/
def initGenState (p : PlanetData) : GenState :=
  ⟨LOGICAL_HEIGHT - 150, p.allowedBiomes.head?, 0, [], [], [], [], []⟩

/-- The first `k` iterations of the generation loop. -/
def mapGenUpTo (p : PlanetData) (trig : TrigOracle) (rnd : ℕ → ℚ) : ℕ → GenState
  | 0 => initGenState p
  | k + 1 => mapGenStep p trig rnd k (mapGenUpTo p trig rnd k)

/-- The full generated map: `segments = 350` (GameEngine.tsx line 1278). -/
def mapGen (p : PlanetData) (trig : TrigOracle) (rnd : ℕ → ℚ) : GenState :=
  mapGenUpTo p trig rnd 350

/-- The per-style maximum magnitude of the height delta rule: 7 for dunes
(`|sin|·5 + |cos|·2`), 7.5 for crags, 40 for plateau steps, 15 for spires,
0 for an undefined style. -/
def styleBound : Option Biome → ℚ
  | some .dunes => 7
  | some .crags => 15/2
  | some .plateau => 40
  | some .spire => 15
  | none => 0

/-- The generator invariant: the running height stays in the `[100, 550]`
band, terrain and style lists stay aligned, the running height is the last
terrain sample, and every consecutive sample pair differs by at most the
(next segment's) style bound plus 42 (2 for the band nudge, 40 for the
hazard ground-raise). -/
def genInv (s : GenState) : Prop :=
  (100 ≤ s.height ∧ s.height ≤ 550) ∧
  s.terrain.length = s.styles.length ∧
  (s.terrain = [] ∨ s.terrain.getD (s.terrain.length - 1) 0 = s.height) ∧
  ∀ j, j + 1 < s.terrain.length →
    |s.terrain.getD (j+1) 0 - s.terrain.getD j 0| ≤
      styleBound (s.styles.getD (j+1) none) + 42

/-- A zero trig oracle (trivially bounded), for concrete runs that never
enter the dunes branch. -/
def trigZero : TrigOracle := ⟨fun _ => 0, fun _ => 0⟩

/-- A concrete all-crags planet with no vegetation, used for concrete
generator runs. -/
def cragPlanet : PlanetData :=
  ⟨"LV-426", 4/5, "#1a1a2e", "#4e4e50", 5, [.crags], [.acid_rain, .clear],
    0, 1/2⟩

/-- A concrete all-crags planet with full vegetation density. -/
def cragVegPlanet : PlanetData :=
  ⟨"LV-426", 4/5, "#1a1a2e", "#4e4e50", 5, [.crags], [.acid_rain, .clear],
    1, 1/2⟩

/-- A concrete planet with empty `allowedBiomes` and `weatherTraits`. -/
def voidPlanet : PlanetData :=
  ⟨"Void", 1, "#1a1a2e", "#4e4e50", 5, [], [], 0, 1/2⟩

/-- The stream for the C3 run: 1/2 everywhere except draw 46 (the segment-11
hazard roll), which is 0. -/
def c3Stream : ℕ → ℚ := fun k => if k = 46 then 0 else 1/2

/-- The stream for the C4 run: 1/2 except draw 2 (the segment-0 spikes
roll, 0.05) and draw 4 (the segment-0 vegetation roll, 0). -/
def c4Stream : ℕ → ℚ := fun k => if k = 2 then 1/20 else if k = 4 then 0 else 1/2

end CosmicDrifter

namespace CosmicDrifter

theorem groundSampleIndices_in_bounds (terrain : List ℚ) (x : ℚ)
    (h : terrain ≠ []) :
    0 ≤ (groundSampleIndices terrain x).1 ∧
      (groundSampleIndices terrain x).1 ≤ terrain.length - 1 ∧
      0 ≤ (groundSampleIndices terrain x).2 ∧
      (groundSampleIndices terrain x).2 ≤ terrain.length - 1 := by
  have hlen : 1 ≤ (terrain.length : ℤ) := by
    have : 0 < terrain.length := List.length_pos.mpr h
    exact_mod_cast this
  unfold groundSampleIndices
  refine ⟨le_max_left _ _, ?_, le_max_left _ _, ?_⟩ <;>
    · simp only [max_le_iff, min_le_iff]
      exact ⟨by omega, Or.inr le_rfl⟩

theorem getGroundHeightAt_empty (x : ℚ) : getGroundHeightAt [] x = 600 := by
  simp [getGroundHeightAt, LOGICAL_HEIGHT]

/-- Left of the first sample (`x < 0`) both clamped indices are `0`, so the
result is the first sample's height. -/
theorem getGroundHeightAt_left_edge (terrain : List ℚ) (x : ℚ)
    (hne : terrain ≠ []) (hx : x < 0) :
    getGroundHeightAt terrain x = terrain.getD 0 0 := by
  have hlen : terrain.length ≠ 0 := by
    simpa [List.length_eq_zero] using hne
  have hfloor : ⌊x / (50 : ℚ)⌋ ≤ -1 := by
    have hneg : x / (50 : ℚ) < 0 := div_neg_of_neg_of_pos hx (by norm_num)
    have hle : (⌊x / (50 : ℚ)⌋ : ℚ) ≤ x / 50 := Int.floor_le _
    by_contra hcon
    push_neg at hcon
    have h0 : (0 : ℚ) ≤ (⌊x / (50 : ℚ)⌋ : ℚ) := by
      exact_mod_cast (by omega : (0 : ℤ) ≤ ⌊x / (50 : ℚ)⌋)
    linarith
  unfold getGroundHeightAt
  rw [if_neg hlen]
  have hL : 1 ≤ (terrain.length : ℤ) := by
    have : 0 < terrain.length := Nat.pos_of_ne_zero hlen
    exact_mod_cast this
  have h1 : max 0 (min ⌊x / (50 : ℚ)⌋ ((terrain.length : ℤ) - 1)) = 0 := by
    have : min ⌊x / (50 : ℚ)⌋ ((terrain.length : ℤ) - 1) ≤ ⌊x / (50 : ℚ)⌋ :=
      min_le_left _ _
    omega
  have h2 : max 0 (min (⌊x / (50 : ℚ)⌋ + 1) ((terrain.length : ℤ) - 1)) = 0 := by
    rcases le_or_lt (⌊x / (50 : ℚ)⌋ + 1) ((terrain.length : ℤ) - 1) with hc | hc
    · rw [min_eq_left hc]; omega
    · rw [min_eq_right (le_of_lt hc)]; omega
  simp only [h1, h2, Int.toNat_zero]
  ring

/-- Right of the last sample (`x ≥ 50 * (terrain.length - 1)`) both clamped
indices are `terrain.length - 1`, so the result is the last sample's height. -/
theorem getGroundHeightAt_right_edge (terrain : List ℚ) (x : ℚ)
    (hne : terrain ≠ []) (hx : (50 : ℚ) * (terrain.length - 1) ≤ x) :
    getGroundHeightAt terrain x = terrain.getD (terrain.length - 1) 0 := by
  have hlen : terrain.length ≠ 0 := by
    simpa [List.length_eq_zero] using hne
  have hL : 1 ≤ (terrain.length : ℤ) := by
    have : 0 < terrain.length := Nat.pos_of_ne_zero hlen
    exact_mod_cast this
  have hfloor : (terrain.length : ℤ) - 1 ≤ ⌊x / (50 : ℚ)⌋ := by
    apply Int.le_floor.mpr
    rw [le_div_iff₀ (by norm_num : (0:ℚ) < 50)]
    push_cast
    linarith
  unfold getGroundHeightAt
  rw [if_neg hlen]
  have h1 : max 0 (min ⌊x / (50 : ℚ)⌋ ((terrain.length : ℤ) - 1)) =
      (terrain.length : ℤ) - 1 := by
    rw [min_eq_right hfloor]; omega
  have h2 : max 0 (min (⌊x / (50 : ℚ)⌋ + 1) ((terrain.length : ℤ) - 1)) =
      (terrain.length : ℤ) - 1 := by
    rw [min_eq_right (by omega)]; omega
  simp only [h1, h2]
  have hcast : ((terrain.length : ℤ) - 1).toNat = terrain.length - 1 := by
    omega
  rw [hcast]
  ring

/-- The weather machine changes phase only when the decremented timer is
`≤ 0` (given that a zero-volatility mission never leaves the clear phase). -/
theorem weatherMachine_phase_change (p : PlanetData) (rnd : ℕ → ℚ) (dt : ℚ)
    (w : WeatherSt) (n : ℕ)
    (hvol : p.weatherVolatility ≤ 0 → w.phase = .clear)
    (hchange : (weatherMachine p rnd dt w n).1 ≠ w.phase) :
    w.timer - dt ≤ 0 := by
  unfold weatherMachine at hchange
  by_cases hv : 0 < p.weatherVolatility
  · rw [if_pos hv] at hchange
    by_cases ht : w.timer - dt ≤ 0
    · exact ht
    · rw [if_neg ht] at hchange
      exact absurd rfl hchange
  · rw [if_neg hv] at hchange
    rw [hvol (le_of_not_lt hv)] at hchange
    exact absurd rfl hchange

theorem updateWeatherCore_phase (p : PlanetData) (rnd : ℕ → ℚ) (dt : ℚ)
    (w : WeatherSt) (n : ℕ) :
    ((updateWeatherCore p rnd dt w n).1).phase =
      (weatherMachine p rnd dt w n).1 := rfl

theorem updateWeatherCore_intensity_mem (p : PlanetData) (rnd : ℕ → ℚ)
    (dt : ℚ) (w : WeatherSt) (n : ℕ) :
    0 ≤ ((updateWeatherCore p rnd dt w n).1).intensity ∧
      ((updateWeatherCore p rnd dt w n).1).intensity ≤ 1 := by
  have h : ((updateWeatherCore p rnd dt w n).1).intensity =
      max 0 (min 1 (match (weatherMachine p rnd dt w n).1 with
        | .buildup => w.intensity + (1/500) * dt
        | .active => min 1 (w.intensity + (1/1000) * dt)
        | .fading => w.intensity - (1/500) * dt
        | .clear => max 0 (w.intensity - (1/200) * dt))) := rfl
  rw [h]
  exact ⟨le_max_left _ _, max_le (by norm_num) (min_le_left _ _)⟩

/-- The elite death score is exactly twice the common one (GameEngine.tsx
line 554). -/
theorem deathScore_elite (row : EnemyStatRow) :
    deathScore row .elite = 2 * deathScore row .common := by
  unfold deathScore
  simp only [eq_self_iff_true, if_true,
    eq_false (by decide : Rarity.common ≠ .elite), if_false]
  ring

/-- `Math.floor` of an integer times 2 is exactly the doubled integer. -/
theorem floor_intCast_mul_two (c : ℤ) : ⌊((c : ℚ)) * 2⌋ = 2 * c := by
  have h : ((c : ℚ)) * 2 = ((2 * c : ℤ) : ℚ) := by push_cast; ring
  rw [h, Int.floor_intCast]

/-- `Math.floor (c * 1.5)` is strictly below `2 * c` for positive `c`. -/
theorem floor_three_halves_lt (c : ℤ) (hc : 1 ≤ c) :
    ⌊((c : ℚ)) * (3/2)⌋ < 2 * c := by
  have h1 : ((⌊((c : ℚ)) * (3/2)⌋ : ℚ)) ≤ (c : ℚ) * (3/2) := Int.floor_le _
  have hcq : (1 : ℚ) ≤ (c : ℚ) := by exact_mod_cast hc
  have h2 : ((c : ℚ)) * (3/2) < 2 * (c : ℚ) := by linarith
  have h3 : ((⌊((c : ℚ)) * (3/2)⌋ : ℚ)) < 2 * (c : ℚ) := lt_of_le_of_lt h1 h2
  exact_mod_cast h3

/-- Evaluation of `spawnEnemyCore` on a rolled (unforced) sandworm whose
elite roll missed: the sandworm override still marks it elite but its
health is only `floor(1.5 ×)` the common scaled health. -/
theorem spawnEnemyCore_sandworm_rolled (tbl : StatTable) (density : ℚ)
    (rnd : ℕ → ℚ) (n : ℕ)
    (hs : rollArchetype (rnd n) = .sandworm)
    (hroll : rnd (n+1) ≤ 85/100) :
    spawnEnemyCore tbl density rnd n none none =
      (.sandworm, .elite,
        ⌊((⌊(tbl .sandworm).hp * (1 + density * (5/100))⌋ : ℚ)) * (3/2)⌋,
        n + 7) := by
  unfold spawnEnemyCore statsFor
  rw [Option.getD_none, hs]
  simp only [eq_false (by decide : Archetype.sandworm ≠ .hornet),
    eq_false (by decide : Archetype.sandworm ≠ .spore),
    eq_false (by decide : Archetype.sandworm ≠ .neutral),
    eq_false (by decide : Archetype.sandworm ≠ .guardian),
    eq_false (by decide : Archetype.sandworm ≠ .shielder),
    eq_true (by decide : Archetype.sandworm ≠ Archetype.neutral),
    eq_self_iff_true, if_true, if_false, or_self, not_false_iff, and_true,
    true_and, if_neg (not_lt.mpr hroll),
    eq_false (by decide : Rarity.common ≠ .elite), Prod.mk.injEq]

/-- Closed form of `n` iterated core pickups from mission start: the core
counter equals `n`, the boss latch is set exactly when the threshold `k` has
been reached, and the guardian has been spawned exactly once iff `k ≤ n`. -/
theorem corePickup_iterate (k : ℕ) (hk : 1 ≤ k) (n : ℕ) :
    corePickup^[n] (initialProgress k) =
      ⟨n, k, decide (k ≤ n), if k ≤ n then 1 else 0⟩ := by
  induction n with
  | zero =>
      have hkn : ¬ k ≤ 0 := by omega
      simp [initialProgress, hkn]
  | succ n ih =>
      rw [Function.iterate_succ_apply', ih]
      unfold corePickup spawnBoss
      by_cases h1 : k ≤ n
      · have h2 : k ≤ n + 1 := by omega
        simp [h1, h2]
      · by_cases h2 : k ≤ n + 1
        · simp [h1, h2]
        · simp [h1, h2]

theorem mapGenUpTo_succ (p : PlanetData) (trig : TrigOracle) (rnd : ℕ → ℚ)
    (k : ℕ) :
    mapGenUpTo p trig rnd (k + 1) =
      mapGenStep p trig rnd k (mapGenUpTo p trig rnd k) := rfl

theorem mapGenStep_terrain (p : PlanetData) (trig : TrigOracle) (rnd : ℕ → ℚ)
    (i : ℕ) (s : GenState) :
    (mapGenStep p trig rnd i s).terrain =
      s.terrain ++ [(mapGenStep p trig rnd i s).height] := rfl

theorem mapGenStep_styles (p : PlanetData) (trig : TrigOracle) (rnd : ℕ → ℚ)
    (i : ℕ) (s : GenState) :
    (mapGenStep p trig rnd i s).styles =
      s.styles ++ [(mapGenStep p trig rnd i s).styleCur] := rfl

theorem mapGenStep_styleCur (p : PlanetData) (trig : TrigOracle) (rnd : ℕ → ℚ)
    (i : ℕ) (s : GenState) :
    (mapGenStep p trig rnd i s).styleCur =
      if i % 80 = 0 then biomePick p.allowedBiomes (rnd s.n) else s.styleCur := rfl

theorem mapGenUpTo_terrain_length (p : PlanetData) (trig : TrigOracle)
    (rnd : ℕ → ℚ) (k : ℕ) :
    (mapGenUpTo p trig rnd k).terrain.length = k := by
  induction k with
  | zero => rfl
  | succ k ih =>
      rw [mapGenUpTo_succ, mapGenStep_terrain, List.length_append, ih]
      rfl

theorem biomePick_nil (r : ℚ) : biomePick [] r = none := by
  simp [biomePick]

/-- With empty `allowedBiomes` the current style is `undefined` forever and
every segment records an undefined style. -/
theorem mapGenUpTo_emptyBiomes (p : PlanetData) (trig : TrigOracle)
    (rnd : ℕ → ℚ) (hb : p.allowedBiomes = []) (k : ℕ) :
    (mapGenUpTo p trig rnd k).styleCur = none ∧
    (mapGenUpTo p trig rnd k).styles = List.replicate k none := by
  induction k with
  | zero =>
      constructor
      · show p.allowedBiomes.head? = none
        rw [hb]
        rfl
      · rfl
  | succ k ih =>
      have hcur : (mapGenUpTo p trig rnd (k + 1)).styleCur = none := by
        rw [mapGenUpTo_succ, mapGenStep_styleCur]
        by_cases h : k % 80 = 0
        · rw [if_pos h, hb, biomePick_nil]
        · rw [if_neg h, ih.1]
      refine ⟨hcur, ?_⟩
      rw [mapGenUpTo_succ, mapGenStep_styles, ih.2, ← mapGenUpTo_succ, hcur,
        ← List.replicate_succ']

/-- The weather machine never leaves the clear phase when the planet has no
weather traits. -/
theorem weatherMachine_emptyTraits (p : PlanetData) (rnd : ℕ → ℚ) (dt : ℚ)
    (w : WeatherSt) (n : ℕ) (ht : p.weatherTraits = [])
    (hphase : w.phase = .clear) (hcur : w.current = .clear) :
    (weatherMachine p rnd dt w n).1 = .clear ∧
    (weatherMachine p rnd dt w n).2.1 = .clear := by
  unfold weatherMachine
  by_cases hv : 0 < p.weatherVolatility
  · rw [if_pos hv]
    by_cases htm : w.timer - dt ≤ 0
    · rw [if_pos htm, hphase]
      have hcond : ¬(rnd n < 1/2 * p.weatherVolatility ∧
          0 < p.weatherTraits.length) := by
        rintro ⟨-, hlen⟩
        rw [ht] at hlen
        simp at hlen
      simp only [if_neg hcond]
      constructor <;> simp [hcur]
    · rw [if_neg htm]
      exact ⟨hphase, hcur⟩
  · rw [if_neg hv]
    exact ⟨rfl, rfl⟩

theorem updateWeatherCore_current (p : PlanetData) (rnd : ℕ → ℚ) (dt : ℚ)
    (w : WeatherSt) (n : ℕ) :
    ((updateWeatherCore p rnd dt w n).1).current =
      (weatherMachine p rnd dt w n).2.1 := rfl

/-- If a generator iteration added a hazard strip that is neither spikes
nor ice, the main 6%-roll hazard was placed, and then the iteration placed
neither vegetation nor decoration. -/
theorem genTail_main_short (p : PlanetData) (rnd : ℕ → ℚ) (i : ℕ)
    (style : Option Biome) (mh : Option HazardKind) (hNew : ℚ) (n3 : ℕ)
    (s : GenState)
    (h : ∃ e, e ∈ (genTail p rnd i style mh hNew n3 s).hazards ∧
      e ∉ s.hazards ∧ e.2 ≠ HazardKind.spikes ∧ e.2 ≠ HazardKind.ice) :
    (genTail p rnd i style mh hNew n3 s).vegSegs = s.vegSegs ∧
    (genTail p rnd i style mh hNew n3 s).decoSegs = s.decoSegs := by
  cases mh with
  | some k => simp [genTail]
  | none =>
      exfalso
      obtain ⟨e, he, hnotold, hsp, hic⟩ := h
      simp only [genTail, List.append_nil] at he
      have hkind : ∀ (c : Prop) (inst : Decidable c) (x : ℚ) (k : HazardKind),
          e ∈ (if c then [(x, k)] else []) → e.2 = k := by
        intro c inst x k hm
        split at hm
        · rw [List.mem_singleton.mp hm]
        · simp at hm
      rcases List.mem_append.mp he with h1 | h2
      · rcases List.mem_append.mp h1 with h3 | h4
        · exact hnotold h3
        · exact hsp (hkind _ _ _ _ h4)
      · exact hic (hkind _ _ _ _ h2)

/-- Evaluation of the generator's first iteration on an all-crags,
full-vegetation planet whose draws place floor spikes and a plant on
segment 0: both land on the same segment. -/
theorem mapGenStep_crags_init_spikes_veg (p : PlanetData) (trig : TrigOracle)
    (rnd : ℕ → ℚ)
    (hb : p.allowedBiomes = [.crags]) (hveg : p.vegetationDensity = 1)
    (h0a : 0 ≤ rnd 0) (h0b : rnd 0 < 1)
    (h1 : rnd 1 = 1/2) (h2 : rnd 2 < 1/10) (h3 : rnd 3 ≤ 85/100)
    (h4 : rnd 4 < 3/4) :
    mapGenStep p trig rnd 0 (initGenState p) =
      ⟨450, some .crags, 15, [450], [some .crags], [(0, .spikes)], [0], []⟩ := by
  have hpick : biomePick [Biome.crags] (rnd 0) = some Biome.crags := by
    unfold biomePick
    have hc : (([Biome.crags].length : ℕ) : ℚ) = 1 := by norm_num
    rw [hc, mul_one]
    rw [Int.floor_eq_zero_iff.mpr (Set.mem_Ico.mpr ⟨h0a, h0b⟩)]
    rfl
  simp only [mapGenStep, genTail, bandStep, hazardPhase, styleDelta, initGenState, hb,
    hpick, hveg, LOGICAL_HEIGHT, dite_eq_ite]
  norm_num [h1, if_pos h2, if_neg (not_lt.mpr h3), if_pos h4,
    if_neg (not_lt.mpr (show rnd 3 ≤ 17/20 by linarith)),
    if_pos (show rnd 4 < 1/2 * (1 * (3/2)) by linarith),
    eq_false (by decide : Biome.crags ≠ Biome.spire), Option.some.injEq,
    min_def, max_def, GenState.mk.injEq]

theorem mapGenStep_hazards_mem (p : PlanetData) (trig : TrigOracle)
    (rnd : ℕ → ℚ) (i : ℕ) (s : GenState) (e : ℚ × HazardKind)
    (h : e ∈ s.hazards) : e ∈ (mapGenStep p trig rnd i s).hazards := by
  simp only [mapGenStep, genTail, List.mem_append]
  exact Or.inl (Or.inl (Or.inl h))

theorem mapGenStep_vegSegs_mem (p : PlanetData) (trig : TrigOracle)
    (rnd : ℕ → ℚ) (i : ℕ) (s : GenState) (j : ℕ)
    (h : j ∈ s.vegSegs) : j ∈ (mapGenStep p trig rnd i s).vegSegs := by
  simp only [mapGenStep, genTail, List.mem_append]
  exact Or.inl h

theorem mapGenUpTo_hazards_mono (p : PlanetData) (trig : TrigOracle)
    (rnd : ℕ → ℚ) (e : ℚ × HazardKind) (k m : ℕ) (hkm : k ≤ m)
    (he : e ∈ (mapGenUpTo p trig rnd k).hazards) :
    e ∈ (mapGenUpTo p trig rnd m).hazards := by
  induction m with
  | zero =>
      have h0 : k = 0 := Nat.le_zero.mp hkm
      subst h0
      exact he
  | succ m ih =>
      by_cases h : k ≤ m
      · rw [mapGenUpTo_succ]
        exact mapGenStep_hazards_mem _ _ _ _ _ _ (ih h)
      · have hk : k = m + 1 := by omega
        subst hk
        exact he

theorem mapGenUpTo_vegSegs_mono (p : PlanetData) (trig : TrigOracle)
    (rnd : ℕ → ℚ) (j : ℕ) (k m : ℕ) (hkm : k ≤ m)
    (he : j ∈ (mapGenUpTo p trig rnd k).vegSegs) :
    j ∈ (mapGenUpTo p trig rnd m).vegSegs := by
  induction m with
  | zero =>
      have h0 : k = 0 := Nat.le_zero.mp hkm
      subst h0
      exact he
  | succ m ih =>
      by_cases h : k ≤ m
      · rw [mapGenUpTo_succ]
        exact mapGenStep_vegSegs_mem _ _ _ _ _ _ (ih h)
      · have hk : k = m + 1 := by omega
        subst hk
        exact he

/-- Evaluation of a "quiet" crags iteration: style unchanged, zero delta
draw, no hazard roll eligibility, spikes/decoration/vegetation rolls all
miss (no vegetation possible at density 0). -/
theorem mapGenStep_crags_quiet (p : PlanetData) (trig : TrigOracle)
    (rnd : ℕ → ℚ) (i n : ℕ) (T : List ℚ) (S : List (Option Biome))
    (H : List (ℚ × HazardKind)) (V D : List ℕ)
    (hveg : p.vegetationDensity = 0)
    (hmod : ¬ i % 80 = 0) (hrange : ¬ (10 < i ∧ i < 340))
    (hrn : rnd n = 1/2) (hsp : 1/10 ≤ rnd (n+1)) (hdec : rnd (n+2) ≤ 85/100)
    (hvg : 0 ≤ rnd (n+3)) :
    mapGenStep p trig rnd i ⟨450, some .crags, n, T, S, H, V, D⟩ =
      ⟨450, some .crags, n + 4, T ++ [450], S ++ [some .crags], H, V, D⟩ := by
  simp only [mapGenStep, genTail, bandStep, hazardPhase, styleDelta, LOGICAL_HEIGHT,
    if_neg hmod, if_neg hrange, hrn, hveg]
  norm_num [min_def, max_def, GenState.mk.injEq, Option.some.injEq,
    eq_false (by decide : Biome.crags ≠ Biome.spire),
    if_neg (not_lt.mpr hsp), if_neg (not_lt.mpr hdec),
    if_neg (not_lt.mpr (show rnd (n+2) ≤ 17/20 by linarith)),
    if_neg (not_lt.mpr hvg)]

/-- Evaluation of a crags iteration whose 6% hazard roll fires: the ground
is raised from 450 to 490 and a lava strip is placed; spikes, decoration
and vegetation are all short-circuited. -/
theorem mapGenStep_crags_hazard (p : PlanetData) (trig : TrigOracle)
    (rnd : ℕ → ℚ) (i n : ℕ) (T : List ℚ) (S : List (Option Biome))
    (H : List (ℚ × HazardKind)) (V D : List ℕ)
    (hmod : ¬ i % 80 = 0) (hrange : 10 < i ∧ i < 340)
    (hrn : rnd n = 1/2) (hrh : rnd (n+1) < 6/100) :
    mapGenStep p trig rnd i ⟨450, some .crags, n, T, S, H, V, D⟩ =
      ⟨490, some .crags, n + 2, T ++ [490], S ++ [some .crags],
        H ++ [((i : ℚ) * 50, .lava)], V, D⟩ := by
  simp only [mapGenStep, genTail, bandStep, hazardPhase, styleDelta, hazardKindRoll,
    LOGICAL_HEIGHT, if_neg hmod, if_pos hrange, hrn]
  norm_num [min_def, max_def, GenState.mk.injEq, Option.some.injEq,
    eq_false (by decide : HazardKind.lava ≠ HazardKind.hnone),
    eq_false (by decide : (some HazardKind.lava : Option HazardKind) ≠ none),
    eq_false (by decide : Biome.crags ≠ Biome.spire), if_pos hrh,
    if_pos (show rnd (n+1) < 3/50 by linarith)]

/-- Evaluation of the generator's first iteration on an all-crags planet
with zero vegetation density and draws that place nothing. -/
theorem mapGenStep_crags_start (p : PlanetData) (trig : TrigOracle)
    (rnd : ℕ → ℚ)
    (hb : p.allowedBiomes = [.crags]) (hveg : p.vegetationDensity = 0)
    (h0a : 0 ≤ rnd 0) (h0b : rnd 0 < 1) (h1 : rnd 1 = 1/2)
    (hsp : 1/10 ≤ rnd 2) (hdec : rnd 3 ≤ 85/100) (hvg : 0 ≤ rnd 4) :
    mapGenStep p trig rnd 0 (initGenState p) =
      ⟨450, some .crags, 5, [450], [some .crags], [], [], []⟩ := by
  have hpick : biomePick [Biome.crags] (rnd 0) = some Biome.crags := by
    unfold biomePick
    have hc : (([Biome.crags].length : ℕ) : ℚ) = 1 := by norm_num
    rw [hc, mul_one]
    rw [Int.floor_eq_zero_iff.mpr (Set.mem_Ico.mpr ⟨h0a, h0b⟩)]
    rfl
  simp only [mapGenStep, genTail, bandStep, hazardPhase, styleDelta, initGenState, hb,
    hpick, hveg, LOGICAL_HEIGHT]
  norm_num [h1, min_def, max_def, GenState.mk.injEq, Option.some.injEq,
    eq_false (by decide : Biome.crags ≠ Biome.spire),
    if_neg (not_lt.mpr hsp), if_neg (not_lt.mpr hdec),
    if_neg (not_lt.mpr (show rnd 3 ≤ 17/20 by linarith)),
    if_neg (not_lt.mpr hvg)]

/-- The style delta is bounded by the per-style `styleBound` (for a bounded
trig oracle and draws in `[0, 1)`). -/
theorem styleDelta_bound (trig : TrigOracle) (rnd : ℕ → ℚ)
    (st : Option Biome) (i n : ℕ) (hb : trig.Bounded) (hr : RndInRange rnd) :
    |(styleDelta trig rnd st i n).1| ≤ styleBound st := by
  obtain ⟨hbs, hbc⟩ := hb
  rcases st with _ | b
  · simp [styleDelta, styleBound]
  · cases b with
    | dunes =>
        have hs := hbs ((i : ℚ) * (1/10))
        have hc := hbc ((i : ℚ) * (5/100))
        simp only [styleDelta, styleBound]
        refine le_trans (abs_add _ _) ?_
        rw [abs_mul, abs_mul, (by norm_num : |(5 : ℚ)| = 5),
          (by norm_num : |(2 : ℚ)| = 2)]
        linarith
    | crags =>
        have h := hr n
        simp only [styleDelta, styleBound]
        rw [abs_mul, (by norm_num : |(15 : ℚ)| = 15)]
        have habs : |rnd n - 1/2| ≤ 1/2 :=
          abs_le.mpr ⟨by linarith [h.1], by linarith [h.2]⟩
        linarith
    | plateau =>
        simp only [styleDelta, styleBound]
        split
        · have h := hr n
          have h0 : (0 : ℤ) ≤ ⌊rnd n * 3⌋ :=
            Int.floor_nonneg.mpr (by nlinarith [h.1])
          have h3 : ⌊rnd n * 3⌋ < 3 := by
            apply Int.floor_lt.mpr
            push_cast
            nlinarith [h.2]
          rw [abs_mul, (by norm_num : |(40 : ℚ)| = 40)]
          have hle : |((⌊rnd n * 3⌋ : ℚ)) - 1| ≤ 1 := by
            rw [abs_le]
            constructor
            · have hq : (0 : ℚ) ≤ (⌊rnd n * 3⌋ : ℚ) := by exact_mod_cast h0
              linarith
            · have hq : ((⌊rnd n * 3⌋ : ℚ)) ≤ 2 := by
                exact_mod_cast (by omega : ⌊rnd n * 3⌋ ≤ 2)
              linarith
          linarith
        · simp
    | spire =>
        have h := hr n
        have habs : |rnd n - 1/2| ≤ 1/2 :=
          abs_le.mpr ⟨by linarith [h.1], by linarith [h.2]⟩
        simp only [styleDelta, styleBound]
        split
        · rw [abs_mul, (by norm_num : |(30 : ℚ)| = 30)]
          linarith
        · rw [abs_mul, (by norm_num : |(5 : ℚ)| = 5)]
          linarith

/-- The band clamp moves the height by at most `|delta| + 2` and keeps it
in `[100, 550]`. -/
theorem bandStep_close (h d : ℚ) (hlo : 100 ≤ h) (hhi : h ≤ 550) :
    (100 ≤ bandStep h d ∧ bandStep h d ≤ 550) ∧
    |bandStep h d - h| ≤ |d| + 2 := by
  have hLH : LOGICAL_HEIGHT - 50 = (550 : ℚ) := by norm_num [LOGICAL_HEIGHT]
  simp only [bandStep, hLH]
  have hcb1 : (100 : ℚ) ≤ max 100 (min 550 (h + d)) := le_max_left _ _
  have hcb2 : max 100 (min 550 (h + d)) ≤ 550 :=
    max_le (by norm_num) (min_le_left _ _)
  have hcd : |max 100 (min 550 (h + d)) - h| ≤ |d| := by
    have h1 : max 100 (min 550 (h + d)) ≤ h + |d| :=
      max_le (by linarith [abs_nonneg d])
        (le_trans (min_le_right _ _) (by linarith [le_abs_self d]))
    have h2 : h - |d| ≤ max 100 (min 550 (h + d)) :=
      le_trans (le_min (by linarith [abs_nonneg d])
        (by linarith [neg_abs_le d])) (le_max_right _ _)
    rw [abs_le]
    exact ⟨by linarith, by linarith⟩
  rw [abs_le] at hcd
  by_cases h150 : max 100 (min 550 (h + d)) < 150
  · rw [if_pos h150, if_neg (by linarith : ¬ (450 : ℚ) <
      max 100 (min 550 (h + d)) + 2)]
    refine ⟨⟨by linarith, by linarith⟩, ?_⟩
    rw [abs_le]
    exact ⟨by linarith [abs_nonneg d], by linarith⟩
  · rw [if_neg h150]
    by_cases h450 : (450 : ℚ) < max 100 (min 550 (h + d))
    · rw [if_pos h450]
      refine ⟨⟨by linarith, by linarith⟩, ?_⟩
      rw [abs_le]
      exact ⟨by linarith, by linarith [abs_nonneg d]⟩
    · rw [if_neg h450]
      refine ⟨⟨hcb1, hcb2⟩, ?_⟩
      rw [abs_le]
      exact ⟨by linarith [abs_nonneg d], by linarith [abs_nonneg d]⟩

/-- The hazard block raises the height by at most 40 and keeps it in
`[100, 550]`. -/
theorem hazardPhase_close (p : PlanetData) (rnd : ℕ → ℚ)
    (style : Option Biome) (i : ℕ) (h : ℚ) (n : ℕ)
    (hlo : 100 ≤ h) (hhi : h ≤ 550) :
    (100 ≤ (hazardPhase p rnd style i h n).1 ∧
      (hazardPhase p rnd style i h n).1 ≤ 550) ∧
    |(hazardPhase p rnd style i h n).1 - h| ≤ 40 := by
  have key : (100 ≤ (if (550 : ℚ) < h + 40 then (550 : ℚ) else h + 40) ∧
      (if (550 : ℚ) < h + 40 then (550 : ℚ) else h + 40) ≤ 550) ∧
      |(if (550 : ℚ) < h + 40 then (550 : ℚ) else h + 40) - h| ≤ 40 := by
    by_cases hc : (550 : ℚ) < h + 40
    · rw [if_pos hc]
      refine ⟨⟨by norm_num, le_refl _⟩, ?_⟩
      rw [abs_le]
      exact ⟨by linarith, by linarith⟩
    · rw [if_neg hc]
      refine ⟨⟨by linarith, by linarith⟩, ?_⟩
      rw [abs_le]
      exact ⟨by linarith, by linarith⟩
  have triv : (100 ≤ h ∧ h ≤ 550) ∧ |h - h| ≤ (40 : ℚ) := ⟨⟨hlo, hhi⟩, by simp⟩
  unfold hazardPhase
  split
  · split
    · dsimp only
      simp only [apply_ite Prod.fst, ite_self]
      exact key
    · exact triv
  · exact triv

/-- The whole height pipeline of one iteration (style delta, band clamp,
hazard raise) moves the height by at most `styleBound style + 42` and keeps
it in `[100, 550]`. -/
theorem heightPipeline_close (p : PlanetData) (trig : TrigOracle)
    (rnd : ℕ → ℚ) (style : Option Biome) (i n : ℕ) (h : ℚ)
    (hb : trig.Bounded) (hr : RndInRange rnd)
    (hlo : 100 ≤ h) (hhi : h ≤ 550) :
    (100 ≤ (hazardPhase p rnd style i
        (bandStep h (styleDelta trig rnd style i n).1)
        (styleDelta trig rnd style i n).2).1 ∧
      (hazardPhase p rnd style i
        (bandStep h (styleDelta trig rnd style i n).1)
        (styleDelta trig rnd style i n).2).1 ≤ 550) ∧
    |(hazardPhase p rnd style i
        (bandStep h (styleDelta trig rnd style i n).1)
        (styleDelta trig rnd style i n).2).1 - h| ≤ styleBound style + 42 := by
  have hd := styleDelta_bound trig rnd style i n hb hr
  have hband := bandStep_close h (styleDelta trig rnd style i n).1 hlo hhi
  have hhz := hazardPhase_close p rnd style i
    (bandStep h (styleDelta trig rnd style i n).1)
    (styleDelta trig rnd style i n).2 hband.1.1 hband.1.2
  refine ⟨hhz.1, ?_⟩
  have htri := abs_sub_le
    ((hazardPhase p rnd style i (bandStep h (styleDelta trig rnd style i n).1)
      (styleDelta trig rnd style i n).2).1)
    (bandStep h (styleDelta trig rnd style i n).1) h
  linarith [hhz.2, hband.2]

/-- One generator iteration keeps the running height in the band and moves
it by at most the new style's bound plus 42. -/
theorem mapGenStep_height_close (p : PlanetData) (trig : TrigOracle)
    (rnd : ℕ → ℚ) (i : ℕ) (s : GenState)
    (hb : trig.Bounded) (hr : RndInRange rnd)
    (hlo : 100 ≤ s.height) (hhi : s.height ≤ 550) :
    (100 ≤ (mapGenStep p trig rnd i s).height ∧
      (mapGenStep p trig rnd i s).height ≤ 550) ∧
    |(mapGenStep p trig rnd i s).height - s.height| ≤
      styleBound ((mapGenStep p trig rnd i s).styleCur) + 42 :=
  heightPipeline_close p trig rnd
    (if i % 80 = 0 then biomePick p.allowedBiomes (rnd s.n) else s.styleCur)
    i (if i % 80 = 0 then s.n + 1 else s.n) s.height hb hr hlo hhi

theorem genInv_init (p : PlanetData) : genInv (initGenState p) := by
  refine ⟨⟨?_, ?_⟩, rfl, Or.inl rfl, ?_⟩
  · norm_num [initGenState, LOGICAL_HEIGHT]
  · norm_num [initGenState, LOGICAL_HEIGHT]
  · intro j hj
    simp [initGenState] at hj

theorem genInv_step (p : PlanetData) (trig : TrigOracle) (rnd : ℕ → ℚ)
    (i : ℕ) (s : GenState) (hb : trig.Bounded) (hr : RndInRange rnd)
    (hinv : genInv s) : genInv (mapGenStep p trig rnd i s) := by
  obtain ⟨⟨hlo, hhi⟩, hlen, hlast, hpairs⟩ := hinv
  have hcl := mapGenStep_height_close p trig rnd i s hb hr hlo hhi
  refine ⟨hcl.1, ?_, ?_, ?_⟩
  · rw [mapGenStep_terrain, mapGenStep_styles, List.length_append,
      List.length_append, hlen, List.length_singleton, List.length_singleton]
  · right
    rw [mapGenStep_terrain, List.length_append, List.length_singleton]
    have hidx : s.terrain.length + 1 - 1 = s.terrain.length := by omega
    rw [hidx, List.getD_append_right _ _ _ _ (le_refl _), Nat.sub_self]
    rfl
  · intro j hj
    rw [mapGenStep_terrain, List.length_append, List.length_singleton] at hj
    rw [mapGenStep_terrain, mapGenStep_styles]
    by_cases hcase : j + 1 < s.terrain.length
    · rw [List.getD_append _ _ _ _ hcase,
        List.getD_append _ _ _ _ (by omega : j < s.terrain.length),
        List.getD_append _ _ _ _ (by rw [← hlen]; exact hcase)]
      exact hpairs j hcase
    · have hj1 : j + 1 = s.terrain.length := by omega
      have e1 : (s.terrain ++ [(mapGenStep p trig rnd i s).height]).getD (j+1) 0
          = (mapGenStep p trig rnd i s).height := by
        rw [hj1, List.getD_append_right _ _ _ _ (le_refl _), Nat.sub_self]
        rfl
      have hTne : s.terrain ≠ [] := by
        intro hT
        rw [hT] at hj1
        simp at hj1
      have hlast' : s.terrain.getD (s.terrain.length - 1) 0 = s.height :=
        hlast.resolve_left hTne
      have e2 : (s.terrain ++ [(mapGenStep p trig rnd i s).height]).getD j 0
          = s.height := by
        rw [List.getD_append _ _ _ _ (by omega : j < s.terrain.length)]
        have hj' : j = s.terrain.length - 1 := by omega
        rw [hj']
        exact hlast'
      have e3 : (s.styles ++ [(mapGenStep p trig rnd i s).styleCur]).getD (j+1)
          none = (mapGenStep p trig rnd i s).styleCur := by
        rw [hj1, hlen, List.getD_append_right _ _ _ _ (le_refl _), Nat.sub_self]
        rfl
      rw [e1, e2, e3]
      exact hcl.2

theorem genInv_upTo (p : PlanetData) (trig : TrigOracle) (rnd : ℕ → ℚ)
    (hb : trig.Bounded) (hr : RndInRange rnd) (k : ℕ) :
    genInv (mapGenUpTo p trig rnd k) := by
  induction k with
  | zero => exact genInv_init p
  | succ k ih => exact genInv_step p trig rnd k _ hb hr ih

theorem mapGenUpTo_styles_length (p : PlanetData) (trig : TrigOracle)
    (rnd : ℕ → ℚ) (k : ℕ) :
    (mapGenUpTo p trig rnd k).styles.length = k := by
  induction k with
  | zero => rfl
  | succ k ih =>
      rw [mapGenUpTo_succ, mapGenStep_styles, List.length_append, ih,
        List.length_singleton]

/-- A terrain sample is fixed once its segment has been generated. -/
theorem mapGenUpTo_terrain_getD_stable (p : PlanetData) (trig : TrigOracle)
    (rnd : ℕ → ℚ) (k m j : ℕ) (hkm : k ≤ m) (hj : j < k) :
    (mapGenUpTo p trig rnd m).terrain.getD j 0 =
      (mapGenUpTo p trig rnd k).terrain.getD j 0 := by
  induction m with
  | zero =>
      have h0 : k = 0 := by omega
      subst h0
      rfl
  | succ m ih =>
      by_cases h : k ≤ m
      · rw [mapGenUpTo_succ, mapGenStep_terrain,
          List.getD_append _ _ _ _
            (by rw [mapGenUpTo_terrain_length]; omega)]
        exact ih h
      · have hk : k = m + 1 := by omega
        subst hk
        rfl

/-- A segment's recorded style is fixed once generated. -/
theorem mapGenUpTo_styles_getD_stable (p : PlanetData) (trig : TrigOracle)
    (rnd : ℕ → ℚ) (k m j : ℕ) (hkm : k ≤ m) (hj : j < k) :
    (mapGenUpTo p trig rnd m).styles.getD j none =
      (mapGenUpTo p trig rnd k).styles.getD j none := by
  induction m with
  | zero =>
      have h0 : k = 0 := by omega
      subst h0
      rfl
  | succ m ih =>
      by_cases h : k ≤ m
      · rw [mapGenUpTo_succ, mapGenStep_styles,
          List.getD_append _ _ _ _
            (by rw [mapGenUpTo_styles_length]; omega)]
        exact ih h
      · have hk : k = m + 1 := by omega
        subst hk
        rfl

end CosmicDrifter

/-- C6: after `updateWeather`, the weather intensity lies in `[0, 1]`, and a
phase transition occurs only when the (decremented) phase timer has reached
a value `≤ 0`.  The hypothesis says that on a zero-volatility planet the
phase is clear, which holds at mission start and is preserved by the
machine. -/
theorem claim_C6_weather_intensity_and_transitions (p : CosmicDrifter.PlanetData)
    (rnd : ℕ → ℚ) (dt : ℚ) (w : CosmicDrifter.WeatherSt) (n : ℕ)
    (hvol : p.weatherVolatility ≤ 0 → w.phase = .clear) :
    (0 ≤ ((CosmicDrifter.updateWeatherCore p rnd dt w n).1).intensity ∧
      ((CosmicDrifter.updateWeatherCore p rnd dt w n).1).intensity ≤ 1) ∧
    (((CosmicDrifter.updateWeatherCore p rnd dt w n).1).phase ≠ w.phase →
      w.timer - dt ≤ 0) := by
  refine ⟨CosmicDrifter.updateWeatherCore_intensity_mem p rnd dt w n, ?_⟩
  intro hchange
  rw [CosmicDrifter.updateWeatherCore_phase] at hchange
  exact CosmicDrifter.weatherMachine_phase_change p rnd dt w n hvol hchange

/-- Witness for C6 at a concrete planet, stream, state and `dt = 10`:
the active phase's timer expires, the machine fades, intensity stays in
`[0, 1]`. -/
theorem claim_C6_witness :
    let p : CosmicDrifter.PlanetData :=
      ⟨"LV-426", 4/5, "#1a1a2e", "#4e4e50", 5, [.crags],
        [.acid_rain, .clear], 3/10, 1/2⟩
    let w : CosmicDrifter.WeatherSt := ⟨1/10, .active, .acid_rain, 1/2, 5⟩
    ((1:ℚ)/2 ≤ 0 → w.phase = .clear) ∧
    (0 ≤ ((CosmicDrifter.updateWeatherCore p (fun _ => 1/2) 10 w 0).1).intensity ∧
      ((CosmicDrifter.updateWeatherCore p (fun _ => 1/2) 10 w 0).1).intensity ≤ 1) ∧
    (((CosmicDrifter.updateWeatherCore p (fun _ => 1/2) 10 w 0).1).phase ≠ w.phase →
      w.timer - 10 ≤ 0) := by
  intro p w
  refine ⟨by intro h; norm_num at h, ?_⟩
  exact claim_C6_weather_intensity_and_transitions p (fun _ => 1/2) 10 w 0
    (by intro h; norm_num at h)

/-- C7: starting from mission start, the pickup that makes `coresCollected`
reach `totalCoresNeeded` triggers exactly one boss spawn, and no later
pickup triggers a second one: after `n` pickups the guardian spawn count is
`1` if the threshold was reached and `0` otherwise, hence never exceeds 1. -/
theorem claim_C7_exactly_one_boss_spawn (k : ℕ) (hk : 1 ≤ k) :
    (∀ n, (CosmicDrifter.corePickup^[n]
        (CosmicDrifter.initialProgress k)).bossSpawnCount =
        if k ≤ n then 1 else 0) ∧
    (CosmicDrifter.corePickup^[k]
        (CosmicDrifter.initialProgress k)).bossSpawnCount = 1 ∧
    (∀ n, (CosmicDrifter.corePickup^[n]
        (CosmicDrifter.initialProgress k)).bossSpawnCount ≤ 1) := by
  refine ⟨fun n => ?_, ?_, fun n => ?_⟩
  · rw [CosmicDrifter.corePickup_iterate k hk n]
  · rw [CosmicDrifter.corePickup_iterate k hk k]
    simp
  · rw [CosmicDrifter.corePickup_iterate k hk n]
    split <;> simp

/-- Witness for C7 at `totalCoresNeeded = 5`. -/
theorem claim_C7_witness :
    1 ≤ 5 ∧
    (CosmicDrifter.corePickup^[5]
        (CosmicDrifter.initialProgress 5)).bossSpawnCount = 1 ∧
    (CosmicDrifter.corePickup^[8]
        (CosmicDrifter.initialProgress 5)).bossSpawnCount ≤ 1 := by
  refine ⟨by norm_num, (claim_C7_exactly_one_boss_spawn 5 (by norm_num)).2.1,
    (claim_C7_exactly_one_boss_spawn 5 (by norm_num)).2.2 8⟩

/-- C10: `getGroundHeightAt` is total and in-bounds: both sample indices are
clamped into `[0, terrain.length - 1]`, empty terrain yields the constant
logical height 600, and any `x` left of the first sample or right of the
last sample yields that edge sample's height. -/
theorem claim_C10_groundHeight_total_inbounds (terrain : List ℚ) (x : ℚ)
    (hne : terrain ≠ []) :
    (0 ≤ (CosmicDrifter.groundSampleIndices terrain x).1 ∧
      (CosmicDrifter.groundSampleIndices terrain x).1 ≤ terrain.length - 1 ∧
      0 ≤ (CosmicDrifter.groundSampleIndices terrain x).2 ∧
      (CosmicDrifter.groundSampleIndices terrain x).2 ≤ terrain.length - 1) ∧
    CosmicDrifter.getGroundHeightAt [] x = 600 ∧
    (x < 0 → CosmicDrifter.getGroundHeightAt terrain x = terrain.getD 0 0) ∧
    ((50 : ℚ) * (terrain.length - 1) ≤ x →
      CosmicDrifter.getGroundHeightAt terrain x =
        terrain.getD (terrain.length - 1) 0) := by
  exact ⟨CosmicDrifter.groundSampleIndices_in_bounds terrain x hne,
    CosmicDrifter.getGroundHeightAt_empty x,
    fun hx => CosmicDrifter.getGroundHeightAt_left_edge terrain x hne hx,
    fun hx => CosmicDrifter.getGroundHeightAt_right_edge terrain x hne hx⟩

/-- Witness for C10 at `terrain = [450, 430]`, `x = -7`. -/
theorem claim_C10_witness :
    ([ (450 : ℚ), 430 ] ≠ []) ∧
    CosmicDrifter.getGroundHeightAt [(450 : ℚ), 430] (-7) = 450 := by
  refine ⟨by simp, ?_⟩
  have h := claim_C10_groundHeight_total_inbounds [(450 : ℚ), 430] (-7) (by simp)
  have := h.2.2.1 (by norm_num)
  simpa using this

/-- C9: on contact with a crawler while the invulnerability timer is 0, a
100-health player drops to 85 health and the timer is set to the fixed
invulnerability duration; while the timer is positive a contact hit causes
no health loss. -/
theorem claim_C9_contact_damage (phys : CosmicDrifter.PhysicsConsts)
    (player : CosmicDrifter.PlayerSt) (ent : CosmicDrifter.EnemySt) (hitStop : ℚ)
    (hcol : CosmicDrifter.checkCollision player.box ent.box = true)
    (harch : ent.archetype = .crawler)
    (hhp : player.health = 100)
    (htimer : player.hitTimer = 0) :
    ((CosmicDrifter.playerContactHit phys player ent hitStop).1.health = 85 ∧
      (CosmicDrifter.playerContactHit phys player ent hitStop).1.hitTimer =
        phys.invulnerabilityFrames) ∧
    (∀ (p2 : CosmicDrifter.PlayerSt) (e2 : CosmicDrifter.EnemySt) (hs2 : ℚ),
      0 < p2.hitTimer →
      (CosmicDrifter.playerContactHit phys p2 e2 hs2).1.health = p2.health) := by
  constructor
  · have hcond : (CosmicDrifter.checkCollision player.box ent.box = true) ∧
        ent.archetype ≠ CosmicDrifter.Archetype.neutral := by
      refine ⟨hcol, ?_⟩
      rw [harch]
      intro hc
      cases hc
    unfold CosmicDrifter.playerContactHit
    rw [if_pos hcond, if_pos (by rw [htimer] : player.hitTimer ≤ 0)]
    constructor
    · show player.health - 15 = 85
      rw [hhp]; norm_num
    · rfl
  · intro p2 e2 hs2 hpos
    unfold CosmicDrifter.playerContactHit
    by_cases hc : (CosmicDrifter.checkCollision p2.box e2.box = true) ∧
        e2.archetype ≠ CosmicDrifter.Archetype.neutral
    · rw [if_pos hc, if_neg (by linarith : ¬ p2.hitTimer ≤ 0)]
    · rw [if_neg hc]

/-- Witness for C9: a concrete overlapping crawler contact at 100 health and
timer 0, with modelled invulnerability duration 60. -/
theorem claim_C9_witness :
    (CosmicDrifter.checkCollision
      (CosmicDrifter.PlayerSt.box ⟨0, 0, 32, 32, 0, 0, 100, 0⟩)
      (CosmicDrifter.EnemySt.box
        ⟨10, 10, 30, 20, 0, 0, 30, 0, .crawler, .chase, false, false, true, false⟩)
        = true) ∧
    (CosmicDrifter.playerContactHit ⟨3/10, 60⟩ ⟨0, 0, 32, 32, 0, 0, 100, 0⟩
      ⟨10, 10, 30, 20, 0, 0, 30, 0, .crawler, .chase, false, false, true, false⟩
      0).1.health = 85 := by
  have hcol : CosmicDrifter.checkCollision
      (CosmicDrifter.PlayerSt.box ⟨0, 0, 32, 32, 0, 0, 100, 0⟩)
      (CosmicDrifter.EnemySt.box
        ⟨10, 10, 30, 20, 0, 0, 30, 0, .crawler, .chase, false, false, true, false⟩)
        = true := by
    simp [CosmicDrifter.checkCollision, CosmicDrifter.PlayerSt.box,
      CosmicDrifter.EnemySt.box]
    norm_num
  refine ⟨hcol, ?_⟩
  exact (claim_C9_contact_damage ⟨3/10, 60⟩ ⟨0, 0, 32, 32, 0, 0, 100, 0⟩
    ⟨10, 10, 30, 20, 0, 0, 30, 0, .crawler, .chase, false, false, true, false⟩
    0 hcol rfl rfl rfl).1.1

/-- C1 as stated is false: the code blocks frontal hits while the shielder
is in its CHASE stance, not in its stationary idle stance.  Concretely, an
idle (stationary-stance) shielder facing left hit frontally by a rightward
projectile takes full damage (20 → 10 health, not blocked), while the same
shot against a chase-stance shielder is blocked with zero damage. -/
theorem claim_C1_counterexample :
    ((CosmicDrifter.projectileHitEnemy ⟨1, 2⟩ 1 (1, 0)
        ⟨10, 10, 4, 4, 5, 0, 0, false, false⟩
        ⟨0, 0, 40, 40, 0, 0, 20, 0, .shielder, .idle, false, false, true, false⟩).blocked
        = false ∧
      (CosmicDrifter.projectileHitEnemy ⟨1, 2⟩ 1 (1, 0)
        ⟨10, 10, 4, 4, 5, 0, 0, false, false⟩
        ⟨0, 0, 40, 40, 0, 0, 20, 0, .shielder, .idle, false, false, true, false⟩).enemy.health
        = 10) ∧
    ((CosmicDrifter.projectileHitEnemy ⟨1, 2⟩ 1 (1, 0)
        ⟨10, 10, 4, 4, 5, 0, 0, false, false⟩
        ⟨0, 0, 40, 40, 0, 0, 20, 0, .shielder, .chase, false, false, true, false⟩).blocked
        = true ∧
      (CosmicDrifter.projectileHitEnemy ⟨1, 2⟩ 1 (1, 0)
        ⟨10, 10, 4, 4, 5, 0, 0, false, false⟩
        ⟨0, 0, 40, 40, 0, 0, 20, 0, .shielder, .chase, false, false, true, false⟩).enemy.health
        = 20) := by
  have hcol : CosmicDrifter.checkCollisionInflated
      (CosmicDrifter.ProjSt.box ⟨10, 10, 4, 4, 5, 0, 0, false, false⟩)
      (CosmicDrifter.Box.mk 0 0 40 40) 8 = true := by
    simp [CosmicDrifter.checkCollisionInflated, CosmicDrifter.ProjSt.box]
    norm_num
  constructor
  · unfold CosmicDrifter.projectileHitEnemy
    rw [if_pos ⟨by simp, by simp, hcol⟩,
      if_neg (by
        rintro (⟨-, hc, -⟩ | ⟨hs, -⟩)
        · exact CosmicDrifter.AiState.noConfusion hc
        · exact CosmicDrifter.Archetype.noConfusion hs),
      if_neg (by simp)]
    refine ⟨rfl, ?_⟩
    show (20 : ℚ) - ((⌈(10 : ℚ) * 1 * 1⌉ : ℤ) : ℚ) = 10
    norm_num
  · unfold CosmicDrifter.projectileHitEnemy
    rw [if_pos ⟨by simp, by simp, hcol⟩,
      if_pos (Or.inl ⟨rfl, rfl, Or.inr ⟨rfl, by norm_num⟩⟩)]
    exact ⟨rfl, rfl⟩

/-- C1 amended: the shielder's damage-immune shield-up stance is its CHASE
stance — while chasing, a frontal hit (arriving from the side it faces) is
blocked, the projectile destroyed and zero damage dealt; in the stationary
idle (shield-down) stance the same shot deals full damage
`⌈10 · weapon.damageMult · upgradeMult⌉`. -/
theorem claim_C1_amended_shielder_block (w : CosmicDrifter.WeaponStats)
    (dmgMult : ℚ) (dir : ℚ × ℚ) (proj : CosmicDrifter.ProjSt)
    (enemy : CosmicDrifter.EnemySt)
    (harch : enemy.archetype = .shielder)
    (hem : enemy.marked = false) (hpm : proj.marked = false)
    (hcol : CosmicDrifter.checkCollisionInflated proj.box enemy.box 8 = true)
    (hexp : proj.isExplosive = false) :
    ((enemy.aiState = .chase ∧
        ((enemy.facingRight = true ∧ proj.velX < 0) ∨
         (enemy.facingRight = false ∧ 0 < proj.velX))) →
      (CosmicDrifter.projectileHitEnemy w dmgMult dir proj enemy).blocked = true ∧
      (CosmicDrifter.projectileHitEnemy w dmgMult dir proj enemy).enemy = enemy ∧
      (CosmicDrifter.projectileHitEnemy w dmgMult dir proj enemy).proj.marked = true) ∧
    (enemy.aiState = .idle →
      (CosmicDrifter.projectileHitEnemy w dmgMult dir proj enemy).blocked = false ∧
      (CosmicDrifter.projectileHitEnemy w dmgMult dir proj enemy).enemy.health =
        enemy.health - (⌈10 * w.damageMult * dmgMult⌉ : ℤ)) := by
  have houter : ¬enemy.marked = true ∧ ¬proj.marked = true ∧
      CosmicDrifter.checkCollisionInflated proj.box enemy.box 8 = true := by
    rw [hem, hpm]
    exact ⟨by simp, by simp, hcol⟩
  constructor
  · intro hfront
    have hblock : (enemy.archetype = .shielder ∧ enemy.aiState = .chase ∧
          ((enemy.facingRight = true ∧ proj.velX < 0) ∨
           (enemy.facingRight = false ∧ 0 < proj.velX)))
        ∨ (enemy.archetype = .sandworm ∧ enemy.isBurrowed = true) :=
      Or.inl ⟨harch, hfront.1, hfront.2⟩
    unfold CosmicDrifter.projectileHitEnemy
    rw [if_pos houter, if_pos hblock]
    exact ⟨rfl, rfl, rfl⟩
  · intro hidle
    have hblock : ¬((enemy.archetype = .shielder ∧ enemy.aiState = .chase ∧
          ((enemy.facingRight = true ∧ proj.velX < 0) ∨
           (enemy.facingRight = false ∧ 0 < proj.velX)))
        ∨ (enemy.archetype = .sandworm ∧ enemy.isBurrowed = true)) := by
      rintro (⟨-, hchase, -⟩ | ⟨hsand, -⟩)
      · rw [hidle] at hchase
        cases hchase
      · rw [harch] at hsand
        cases hsand
    unfold CosmicDrifter.projectileHitEnemy
    rw [if_pos houter, if_neg hblock, if_neg (by rw [hexp]; simp)]
    exact ⟨rfl, rfl⟩

/-- Witness for the amended C1 at the concrete chase-stance shielder and
rightward projectile of the counterexample scenario. -/
theorem claim_C1_witness :
    (CosmicDrifter.checkCollisionInflated
        (CosmicDrifter.ProjSt.box ⟨10, 10, 4, 4, 5, 0, 0, false, false⟩)
        (CosmicDrifter.EnemySt.box
          ⟨0, 0, 40, 40, 0, 0, 20, 5, .shielder, .chase, false, false, true, false⟩)
        8 = true) ∧
    (CosmicDrifter.projectileHitEnemy ⟨1, 2⟩ 1 (1, 0)
      ⟨10, 10, 4, 4, 5, 0, 0, false, false⟩
      ⟨0, 0, 40, 40, 0, 0, 20, 5, .shielder, .chase, false, false, true, false⟩).blocked
      = true := by
  have hcol : CosmicDrifter.checkCollisionInflated
      (CosmicDrifter.ProjSt.box ⟨10, 10, 4, 4, 5, 0, 0, false, false⟩)
      (CosmicDrifter.EnemySt.box
        ⟨0, 0, 40, 40, 0, 0, 20, 5, .shielder, .chase, false, false, true, false⟩)
      8 = true := by
    simp [CosmicDrifter.checkCollisionInflated, CosmicDrifter.ProjSt.box,
      CosmicDrifter.EnemySt.box]
    norm_num
  refine ⟨hcol, ?_⟩
  exact ((claim_C1_amended_shielder_block ⟨1, 2⟩ 1 (1, 0)
    ⟨10, 10, 4, 4, 5, 0, 0, false, false⟩
    ⟨0, 0, 40, 40, 0, 0, 20, 5, .shielder, .chase, false, false, true, false⟩
    rfl rfl rfl hcol rfl).1 ⟨rfl, Or.inr ⟨rfl, by norm_num⟩⟩).1

/-- C2 as stated is false: even with `dt = 0` the per-frame multiplicative
damping `ent.vel.x *= 0.95` (GameEngine.tsx line 534) changes an enemy's
horizontal velocity.  Concretely, a lone neutral enemy above ground with
`vel.x = 1` ends the zero-dt update with `vel.x = 0.95 ≠ 1`. -/
theorem claim_C2_counterexample :
    (CosmicDrifter.neutralEnemyStep ⟨3/5, 60⟩ 2
      ⟨"P", 1, "#1a1a2e", "#4e4e50", 5, [.crags], [.clear], 0, 1/2⟩
      [450] (fun _ => 1/2) 0 0
      ⟨0, 100, 30, 30, 1, 0, 30, 0, .neutral, .idle, false, false, false,
        false⟩).1.velX = 19/20 ∧ ((19 : ℚ)/20) ≠ 1 := by
  constructor
  · norm_num [CosmicDrifter.neutralEnemyStep, CosmicDrifter.getGroundHeightAt,
      CosmicDrifter.jsRem, CosmicDrifter.ratTrunc, CosmicDrifter.LOGICAL_HEIGHT]
  · norm_num

/-- C2 amended: with `dt = 0` a (lone, neutral, airborne, non-wandering)
enemy keeps its position, vertical velocity and hit timer, but its
horizontal velocity is still multiplied by the per-frame damping factor
0.95 (so velocities are NOT left unchanged by `update(0)`). -/
theorem claim_C2_amended_zero_dt_damping (phys : CosmicDrifter.PhysicsConsts)
    (speedStat : ℚ) (p : CosmicDrifter.PlanetData) (terrain : List ℚ)
    (rnd : ℕ → ℚ) (n : ℕ) (e : CosmicDrifter.EnemySt)
    (hroll : 2/100 ≤ rnd n)
    (habove : e.posY + e.sizeY <
      CosmicDrifter.getGroundHeightAt terrain (e.posX + e.sizeX / 2))
    (hnoclamp : |e.velX * (95/100)| ≤ (if speedStat = 0 then 2 else speedStat)) :
    (CosmicDrifter.neutralEnemyStep phys speedStat p terrain rnd n 0 e).1.posX
        = e.posX ∧
    (CosmicDrifter.neutralEnemyStep phys speedStat p terrain rnd n 0 e).1.posY
        = e.posY ∧
    (CosmicDrifter.neutralEnemyStep phys speedStat p terrain rnd n 0 e).1.velY
        = e.velY ∧
    (CosmicDrifter.neutralEnemyStep phys speedStat p terrain rnd n 0 e).1.hitTimer
        = e.hitTimer ∧
    (CosmicDrifter.neutralEnemyStep phys speedStat p terrain rnd n 0 e).1.velX
        = e.velX * (95/100) := by
  have hw : ¬ (rnd n < 2/100) := not_lt.mpr hroll
  have hw2 : ¬ (rnd n < 2/100 ∧ e.isGrounded = true) := fun h => hw h.1
  have hsnap : ¬ (CosmicDrifter.getGroundHeightAt terrain (e.posX + e.sizeX / 2)
      ≤ e.posY + e.sizeY) := not_le.mpr habove
  have habs := abs_le.mp hnoclamp
  have hcl : ¬ ((if speedStat = 0 then 2 else speedStat) < |e.velX * (95/100)| ∧
      |e.velX * (95/100)| < 15) := fun h => absurd h.1 (not_lt.mpr hnoclamp)
  have hmax : max (min (e.velX * (95/100)) (if speedStat = 0 then 2 else speedStat))
      (-(if speedStat = 0 then 2 else speedStat)) = e.velX * (95/100) := by
    rw [min_eq_left habs.2, max_eq_left habs.1]
  simp only [CosmicDrifter.neutralEnemyStep, if_neg hw, if_neg hw2, mul_zero,
    add_zero, sub_zero, ite_self, if_neg hsnap, if_neg hcl, hmax]
  all_goals simp

/-- Witness for the amended C2 at the counterexample's concrete state. -/
theorem claim_C2_witness :
    ((2 : ℚ)/100 ≤ 1/2) ∧
    ((100 : ℚ) + 30 < CosmicDrifter.getGroundHeightAt [450] (0 + 30 / 2)) ∧
    (CosmicDrifter.neutralEnemyStep ⟨3/5, 60⟩ 2
      ⟨"P", 1, "#1a1a2e", "#4e4e50", 5, [.crags], [.clear], 0, 1/2⟩
      [450] (fun _ => 1/2) 0 0
      ⟨0, 100, 30, 30, 1, 0, 30, 0, .neutral, .idle, false, false, false,
        false⟩).1.posY = 100 := by
  have hg : CosmicDrifter.getGroundHeightAt [450] (0 + 30 / 2) = 450 := by
    norm_num [CosmicDrifter.getGroundHeightAt, CosmicDrifter.jsRem,
      CosmicDrifter.ratTrunc, CosmicDrifter.LOGICAL_HEIGHT]
  refine ⟨by norm_num, by rw [hg]; norm_num, ?_⟩
  exact (claim_C2_amended_zero_dt_damping ⟨3/5, 60⟩ 2
    ⟨"P", 1, "#1a1a2e", "#4e4e50", 5, [.crags], [.clear], 0, 1/2⟩
    [450] (fun _ => 1/2) 0
    ⟨0, 100, 30, 30, 1, 0, 30, 0, .neutral, .idle, false, false, false, false⟩
    (by norm_num) (by rw [hg]; norm_num)
    (by simp only [ite_self]; rw [abs_le]; constructor <;> norm_num)).2.1

/-- C5 as stated is false: a sandworm rolled by `spawnEnemy` whose elite
roll missed is forcibly marked elite but only gets `floor(1.5 ×)` the
common health.  Concretely (representative stats, density 5): the common
sandworm health is 50 but the spawned elite sandworm has 75 < 2 · 50. -/
theorem claim_C5_counterexample :
    (CosmicDrifter.spawnEnemyCore CosmicDrifter.sampleStats 5
      (fun k => if k = 0 then (45 : ℚ)/100 else 1/2) 0 none none).1
      = .sandworm ∧
    (CosmicDrifter.spawnEnemyCore CosmicDrifter.sampleStats 5
      (fun k => if k = 0 then (45 : ℚ)/100 else 1/2) 0 none none).2.1
      = .elite ∧
    (CosmicDrifter.spawnEnemyCore CosmicDrifter.sampleStats 5
      (fun k => if k = 0 then (45 : ℚ)/100 else 1/2) 0 none none).2.2.1
      = 75 ∧
    (⌊(CosmicDrifter.sampleStats .sandworm).hp * (1 + 5 * (5/100))⌋ : ℤ) = 50 ∧
    (75 : ℤ) < 2 * 50 := by
  have hs : CosmicDrifter.rollArchetype
      ((fun k => if k = 0 then (45 : ℚ)/100 else 1/2) 0) = .sandworm := by
    norm_num [CosmicDrifter.rollArchetype]
  have h := CosmicDrifter.spawnEnemyCore_sandworm_rolled
    CosmicDrifter.sampleStats 5
    (fun k => if k = 0 then (45 : ℚ)/100 else 1/2) 0 hs (by norm_num)
  rw [h]
  have hfloor : (⌊(CosmicDrifter.sampleStats .sandworm).hp * (1 + 5 * (5/100))⌋ : ℤ)
      = 50 := by
    norm_num [CosmicDrifter.sampleStats]
  refine ⟨rfl, rfl, ?_, hfloor, by norm_num⟩
  show (⌊((⌊(CosmicDrifter.sampleStats .sandworm).hp * (1 + 5 * (5/100))⌋ : ℚ))
    * (3/2)⌋ : ℤ) = 75
  rw [hfloor]
  norm_num

/-- C5 amended: the elite death score is exactly 2× the common one for
every archetype; a non-sandworm enemy spawned elite (rolled or forced) has
exactly 2× the common health at the same density; sandworms are always
marked elite, but a sandworm whose elite roll missed gets only
`floor(1.5 ×)` the common health, which is strictly below 2× whenever the
common health is at least 1. -/
theorem claim_C5_amended_elite_scaling (tbl : CosmicDrifter.StatTable)
    (density : ℚ) (rnd : ℕ → ℚ) (n : ℕ) (forcedArch : Option CosmicDrifter.Archetype)
    (forcedRarity : Option CosmicDrifter.Rarity) :
    (∀ row : CosmicDrifter.EnemyStatRow,
      CosmicDrifter.deathScore row .elite = 2 * CosmicDrifter.deathScore row .common) ∧
    ((CosmicDrifter.spawnEnemyCore tbl density rnd n forcedArch forcedRarity).1
        ≠ .sandworm →
      (CosmicDrifter.spawnEnemyCore tbl density rnd n forcedArch forcedRarity).2.1
        = .elite →
      (CosmicDrifter.spawnEnemyCore tbl density rnd n forcedArch forcedRarity).2.2.1
        = 2 * ⌊(CosmicDrifter.statsFor tbl
            (CosmicDrifter.spawnEnemyCore tbl density rnd n forcedArch
              forcedRarity).1).hp * (1 + density * (5/100))⌋) ∧
    ((CosmicDrifter.spawnEnemyCore tbl density rnd n forcedArch forcedRarity).1
        = .sandworm →
      (CosmicDrifter.spawnEnemyCore tbl density rnd n forcedArch forcedRarity).2.1
        = .elite ∧
      (forcedArch = none → forcedRarity = none → rnd (n+1) ≤ 85/100 →
        (CosmicDrifter.spawnEnemyCore tbl density rnd n forcedArch forcedRarity).2.2.1
          = ⌊((⌊(tbl .sandworm).hp * (1 + density * (5/100))⌋ : ℚ)) * (3/2)⌋ ∧
        (1 ≤ ⌊(tbl .sandworm).hp * (1 + density * (5/100))⌋ →
          (CosmicDrifter.spawnEnemyCore tbl density rnd n forcedArch forcedRarity).2.2.1
            < 2 * ⌊(tbl .sandworm).hp * (1 + density * (5/100))⌋))) := by
  refine ⟨CosmicDrifter.deathScore_elite, ?_, ?_⟩
  · intro hns helite
    simp only [CosmicDrifter.spawnEnemyCore] at hns helite ⊢
    rw [if_neg hns] at helite
    rw [if_neg hns, if_pos helite]
    exact CosmicDrifter.floor_intCast_mul_two _
  · intro hsand
    refine ⟨?_, ?_⟩
    · simp only [CosmicDrifter.spawnEnemyCore] at hsand ⊢
      rw [if_pos hsand]
    · intro hfa hfr hroll
      subst hfa
      subst hfr
      have hs : CosmicDrifter.rollArchetype (rnd n) = .sandworm := hsand
      rw [CosmicDrifter.spawnEnemyCore_sandworm_rolled tbl density rnd n hs hroll]
      exact ⟨rfl, fun hc => CosmicDrifter.floor_three_halves_lt _ hc⟩

/-- Witness for the amended C5: a forced-elite sentinel squad leader at
density 5 with the representative stats has exactly twice the common
sentinel health (100 = 2 · 50). -/
theorem claim_C5_witness :
    ((CosmicDrifter.spawnEnemyCore CosmicDrifter.sampleStats 5 (fun _ => 1/2) 0
        (some .sentinel) (some .elite)).1 ≠ .sandworm) ∧
    ((CosmicDrifter.spawnEnemyCore CosmicDrifter.sampleStats 5 (fun _ => 1/2) 0
        (some .sentinel) (some .elite)).2.1 = .elite) ∧
    (CosmicDrifter.spawnEnemyCore CosmicDrifter.sampleStats 5 (fun _ => 1/2) 0
        (some .sentinel) (some .elite)).2.2.1
      = 2 * ⌊(CosmicDrifter.statsFor CosmicDrifter.sampleStats
          (CosmicDrifter.spawnEnemyCore CosmicDrifter.sampleStats 5 (fun _ => 1/2) 0
            (some .sentinel) (some .elite)).1).hp * (1 + 5 * (5/100))⌋ := by
  have hns : (CosmicDrifter.spawnEnemyCore CosmicDrifter.sampleStats 5
      (fun _ => 1/2) 0 (some .sentinel) (some .elite)).1 ≠ .sandworm := by
    simp [CosmicDrifter.spawnEnemyCore]
  have helite : (CosmicDrifter.spawnEnemyCore CosmicDrifter.sampleStats 5
      (fun _ => 1/2) 0 (some .sentinel) (some .elite)).2.1 = .elite := by
    simp [CosmicDrifter.spawnEnemyCore]
  exact ⟨hns, helite,
    (claim_C5_amended_elite_scaling CosmicDrifter.sampleStats 5 (fun _ => 1/2) 0
      (some .sentinel) (some .elite)).2.1 hns helite⟩

/-- C8 as stated is false in its biome half: with empty `allowedBiomes` no
default biome set is substituted — on a concrete empty-biome planet every
one of the 350 generated segments carries an undefined (`none`) style (so
no biome of any default set is ever applied), although generation does
complete with a full 350-sample terrain. -/
theorem claim_C8_counterexample :
    (CosmicDrifter.mapGen CosmicDrifter.voidPlanet CosmicDrifter.trigZero
      (fun _ => 1/2)).styles = List.replicate 350 none ∧
    (CosmicDrifter.mapGen CosmicDrifter.voidPlanet CosmicDrifter.trigZero
      (fun _ => 1/2)).terrain.length = 350 := by
  refine ⟨?_, CosmicDrifter.mapGenUpTo_terrain_length _ _ _ 350⟩
  exact (CosmicDrifter.mapGenUpTo_emptyBiomes CosmicDrifter.voidPlanet
    CosmicDrifter.trigZero (fun _ => 1/2) rfl 350).2

/-- C8 amended: empty `allowedBiomes` does NOT select a default biome set —
every segment's style stays undefined (so all style checks miss and the
height delta is 0) — but generation still completes with 350 terrain
samples and never fails; and empty `weatherTraits` keeps the weather
controller in clear-only weather (the buildup trigger requires a non-empty
trait list), without failing the frame loop. -/
theorem claim_C8_amended_safe_fallbacks (p q : CosmicDrifter.PlanetData)
    (trig : CosmicDrifter.TrigOracle) (rnd rnd2 : ℕ → ℚ) (dt : ℚ)
    (w : CosmicDrifter.WeatherSt) (n : ℕ)
    (hb : p.allowedBiomes = []) (ht : q.weatherTraits = [])
    (hphase : w.phase = .clear) (hcur : w.current = .clear) :
    (CosmicDrifter.mapGen p trig rnd).styles = List.replicate 350 none ∧
    (CosmicDrifter.mapGen p trig rnd).terrain.length = 350 ∧
    ((CosmicDrifter.updateWeatherCore q rnd2 dt w n).1.phase = .clear ∧
     (CosmicDrifter.updateWeatherCore q rnd2 dt w n).1.current = .clear) := by
  refine ⟨(CosmicDrifter.mapGenUpTo_emptyBiomes p trig rnd hb 350).2,
    CosmicDrifter.mapGenUpTo_terrain_length _ _ _ 350, ?_, ?_⟩
  · rw [CosmicDrifter.updateWeatherCore_phase]
    exact (CosmicDrifter.weatherMachine_emptyTraits q rnd2 dt w n ht hphase hcur).1
  · rw [CosmicDrifter.updateWeatherCore_current]
    exact (CosmicDrifter.weatherMachine_emptyTraits q rnd2 dt w n ht hphase hcur).2

/-- Witness for the amended C8 at the concrete empty-biome, empty-trait
planet, zero trig, constant stream and a clear mission-start weather
state. -/
theorem claim_C8_witness :
    (CosmicDrifter.voidPlanet.allowedBiomes = []) ∧
    (CosmicDrifter.voidPlanet.weatherTraits = []) ∧
    (CosmicDrifter.mapGen CosmicDrifter.voidPlanet CosmicDrifter.trigZero
      (fun _ => 1/3)).terrain.length = 350 ∧
    (CosmicDrifter.updateWeatherCore CosmicDrifter.voidPlanet (fun _ => 1/3) 1
      ⟨1/10, .clear, .clear, 0, 600⟩ 0).1.phase = .clear := by
  have h := claim_C8_amended_safe_fallbacks CosmicDrifter.voidPlanet
    CosmicDrifter.voidPlanet CosmicDrifter.trigZero (fun _ => 1/3)
    (fun _ => 1/3) 1 ⟨1/10, .clear, .clear, 0, 600⟩ 0 rfl rfl rfl rfl
  exact ⟨rfl, rfl, h.2.1, h.2.2.1⟩

/-- C4 as stated is false: the crags floor-spikes strip does not set the
`isHazard` flag, so a spikes hazard and a vegetation plant can land on the
same segment.  Concretely, on an all-crags full-vegetation planet with the
`c4Stream` draws, segment 0 receives both the spikes strip at `x = 0` and a
plant. -/
theorem claim_C4_counterexample :
    ((0 : ℚ), CosmicDrifter.HazardKind.spikes) ∈
      (CosmicDrifter.mapGen CosmicDrifter.cragVegPlanet CosmicDrifter.trigZero
        CosmicDrifter.c4Stream).hazards ∧
    0 ∈ (CosmicDrifter.mapGen CosmicDrifter.cragVegPlanet CosmicDrifter.trigZero
        CosmicDrifter.c4Stream).vegSegs := by
  have h1 : CosmicDrifter.mapGenUpTo CosmicDrifter.cragVegPlanet
      CosmicDrifter.trigZero CosmicDrifter.c4Stream 1 =
      ⟨450, some .crags, 15, [450], [some .crags], [(0, .spikes)], [0], []⟩ := by
    show CosmicDrifter.mapGenStep CosmicDrifter.cragVegPlanet
      CosmicDrifter.trigZero CosmicDrifter.c4Stream 0
      (CosmicDrifter.initGenState CosmicDrifter.cragVegPlanet) = _
    exact CosmicDrifter.mapGenStep_crags_init_spikes_veg _ _ _ rfl rfl
      (by norm_num [CosmicDrifter.c4Stream]) (by norm_num [CosmicDrifter.c4Stream])
      (by norm_num [CosmicDrifter.c4Stream]) (by norm_num [CosmicDrifter.c4Stream])
      (by norm_num [CosmicDrifter.c4Stream]) (by norm_num [CosmicDrifter.c4Stream])
  constructor
  · refine CosmicDrifter.mapGenUpTo_hazards_mono _ _ _ _ 1 350 (by norm_num) ?_
    rw [h1]
    simp
  · refine CosmicDrifter.mapGenUpTo_vegSegs_mono _ _ _ _ 1 350 (by norm_num) ?_
    rw [h1]
    simp

/-- C4 amended: only the 6%-roll raised hazards (lava / acid / geyser /
electric) short-circuit placement — whenever a generator iteration adds a
hazard strip that is neither the crags floor-spikes nor the cold-spire ice,
that iteration places neither vegetation nor decoration on its segment;
spikes and ice strips do not set the flag and can share their segment with
vegetation. -/
theorem claim_C4_amended_hazard_short_circuit (p : CosmicDrifter.PlanetData)
    (trig : CosmicDrifter.TrigOracle) (rnd : ℕ → ℚ) (i : ℕ)
    (s : CosmicDrifter.GenState)
    (h : ∃ e, e ∈ (CosmicDrifter.mapGenStep p trig rnd i s).hazards ∧
      e ∉ s.hazards ∧ e.2 ≠ CosmicDrifter.HazardKind.spikes ∧
      e.2 ≠ CosmicDrifter.HazardKind.ice) :
    (CosmicDrifter.mapGenStep p trig rnd i s).vegSegs = s.vegSegs ∧
    (CosmicDrifter.mapGenStep p trig rnd i s).decoSegs = s.decoSegs := by
  simp only [CosmicDrifter.mapGenStep] at h ⊢
  exact CosmicDrifter.genTail_main_short _ _ _ _ _ _ _ _ h

/-- Witness for the amended C4: a crags iteration at segment 11 whose 6%
roll fires places a lava strip and leaves the vegetation and decoration
lists untouched. -/
theorem claim_C4_witness :
    (∃ e, e ∈ (CosmicDrifter.mapGenStep CosmicDrifter.cragPlanet
        CosmicDrifter.trigZero CosmicDrifter.c3Stream 11
        ⟨450, some .crags, 45, [], [], [], [], []⟩).hazards ∧
      e ∉ ([] : List (ℚ × CosmicDrifter.HazardKind)) ∧
      e.2 ≠ CosmicDrifter.HazardKind.spikes ∧
      e.2 ≠ CosmicDrifter.HazardKind.ice) ∧
    (CosmicDrifter.mapGenStep CosmicDrifter.cragPlanet CosmicDrifter.trigZero
      CosmicDrifter.c3Stream 11
      ⟨450, some .crags, 45, [], [], [], [], []⟩).vegSegs = [] := by
  have heval := CosmicDrifter.mapGenStep_crags_hazard CosmicDrifter.cragPlanet
    CosmicDrifter.trigZero CosmicDrifter.c3Stream 11 45 [] [] [] [] []
    (by norm_num) (by norm_num)
    (by norm_num [CosmicDrifter.c3Stream]) (by norm_num [CosmicDrifter.c3Stream])
  have hex : ∃ e, e ∈ (CosmicDrifter.mapGenStep CosmicDrifter.cragPlanet
      CosmicDrifter.trigZero CosmicDrifter.c3Stream 11
      ⟨450, some .crags, 45, [], [], [], [], []⟩).hazards ∧
      e ∉ ([] : List (ℚ × CosmicDrifter.HazardKind)) ∧
      e.2 ≠ CosmicDrifter.HazardKind.spikes ∧
      e.2 ≠ CosmicDrifter.HazardKind.ice := by
    refine ⟨((11 : ℚ) * 50, .lava), ?_, by simp, by decide, by decide⟩
    rw [heval]
    simp
  exact ⟨hex, (claim_C4_amended_hazard_short_circuit CosmicDrifter.cragPlanet
    CosmicDrifter.trigZero CosmicDrifter.c3Stream 11
    ⟨450, some .crags, 45, [], [], [], [], []⟩ hex).1⟩

/-- C3 as stated is false: the 6% hazard roll raises the local ground by 40
on top of the style delta, so consecutive samples can differ by far more
than the style-specific maximum.  Concretely, on an all-crags planet with
the `c3Stream` draws, samples 10 and 11 are 450 and 490: a 40 jump against
the crags bound of 7.5. -/
theorem claim_C3_counterexample :
    (CosmicDrifter.mapGen CosmicDrifter.cragPlanet CosmicDrifter.trigZero
      CosmicDrifter.c3Stream).terrain.getD 10 0 = 450 ∧
    (CosmicDrifter.mapGen CosmicDrifter.cragPlanet CosmicDrifter.trigZero
      CosmicDrifter.c3Stream).terrain.getD 11 0 = 490 ∧
    (CosmicDrifter.mapGen CosmicDrifter.cragPlanet CosmicDrifter.trigZero
      CosmicDrifter.c3Stream).styles.getD 11 none = some .crags ∧
    CosmicDrifter.styleBound (some .crags) < |(490 : ℚ) - 450| := by
  have h1 : CosmicDrifter.mapGenUpTo CosmicDrifter.cragPlanet
      CosmicDrifter.trigZero CosmicDrifter.c3Stream 1 =
      ⟨450, some .crags, 5, [450], [some .crags], [], [], []⟩ := by
    show CosmicDrifter.mapGenStep CosmicDrifter.cragPlanet CosmicDrifter.trigZero
      CosmicDrifter.c3Stream 0 (CosmicDrifter.initGenState CosmicDrifter.cragPlanet) = _
    exact CosmicDrifter.mapGenStep_crags_start _ _ _ rfl rfl
      (by norm_num [CosmicDrifter.c3Stream]) (by norm_num [CosmicDrifter.c3Stream])
      (by norm_num [CosmicDrifter.c3Stream]) (by norm_num [CosmicDrifter.c3Stream])
      (by norm_num [CosmicDrifter.c3Stream]) (by norm_num [CosmicDrifter.c3Stream])
  have h2 : CosmicDrifter.mapGenUpTo CosmicDrifter.cragPlanet
      CosmicDrifter.trigZero CosmicDrifter.c3Stream 2 =
      ⟨450, some .crags, 9, [450, 450], [some .crags, some .crags], [], [], []⟩ := by
    show CosmicDrifter.mapGenStep CosmicDrifter.cragPlanet CosmicDrifter.trigZero
      CosmicDrifter.c3Stream 1 (CosmicDrifter.mapGenUpTo CosmicDrifter.cragPlanet
        CosmicDrifter.trigZero CosmicDrifter.c3Stream 1) = _
    rw [h1]
    exact CosmicDrifter.mapGenStep_crags_quiet _ _ _ _ _ _ _ _ _ _ rfl
      (by omega) (by omega)
      (by norm_num [CosmicDrifter.c3Stream]) (by norm_num [CosmicDrifter.c3Stream])
      (by norm_num [CosmicDrifter.c3Stream]) (by norm_num [CosmicDrifter.c3Stream])
  have h3 : CosmicDrifter.mapGenUpTo CosmicDrifter.cragPlanet
      CosmicDrifter.trigZero CosmicDrifter.c3Stream 3 =
      ⟨450, some .crags, 13, [450, 450, 450], [some .crags, some .crags, some .crags], [], [], []⟩ := by
    show CosmicDrifter.mapGenStep CosmicDrifter.cragPlanet CosmicDrifter.trigZero
      CosmicDrifter.c3Stream 2 (CosmicDrifter.mapGenUpTo CosmicDrifter.cragPlanet
        CosmicDrifter.trigZero CosmicDrifter.c3Stream 2) = _
    rw [h2]
    exact CosmicDrifter.mapGenStep_crags_quiet _ _ _ _ _ _ _ _ _ _ rfl
      (by omega) (by omega)
      (by norm_num [CosmicDrifter.c3Stream]) (by norm_num [CosmicDrifter.c3Stream])
      (by norm_num [CosmicDrifter.c3Stream]) (by norm_num [CosmicDrifter.c3Stream])
  have h4 : CosmicDrifter.mapGenUpTo CosmicDrifter.cragPlanet
      CosmicDrifter.trigZero CosmicDrifter.c3Stream 4 =
      ⟨450, some .crags, 17, [450, 450, 450, 450], [some .crags, some .crags, some .crags, some .crags], [], [], []⟩ := by
    show CosmicDrifter.mapGenStep CosmicDrifter.cragPlanet CosmicDrifter.trigZero
      CosmicDrifter.c3Stream 3 (CosmicDrifter.mapGenUpTo CosmicDrifter.cragPlanet
        CosmicDrifter.trigZero CosmicDrifter.c3Stream 3) = _
    rw [h3]
    exact CosmicDrifter.mapGenStep_crags_quiet _ _ _ _ _ _ _ _ _ _ rfl
      (by omega) (by omega)
      (by norm_num [CosmicDrifter.c3Stream]) (by norm_num [CosmicDrifter.c3Stream])
      (by norm_num [CosmicDrifter.c3Stream]) (by norm_num [CosmicDrifter.c3Stream])
  have h5 : CosmicDrifter.mapGenUpTo CosmicDrifter.cragPlanet
      CosmicDrifter.trigZero CosmicDrifter.c3Stream 5 =
      ⟨450, some .crags, 21, [450, 450, 450, 450, 450], [some .crags, some .crags, some .crags, some .crags, some .crags], [], [], []⟩ := by
    show CosmicDrifter.mapGenStep CosmicDrifter.cragPlanet CosmicDrifter.trigZero
      CosmicDrifter.c3Stream 4 (CosmicDrifter.mapGenUpTo CosmicDrifter.cragPlanet
        CosmicDrifter.trigZero CosmicDrifter.c3Stream 4) = _
    rw [h4]
    exact CosmicDrifter.mapGenStep_crags_quiet _ _ _ _ _ _ _ _ _ _ rfl
      (by omega) (by omega)
      (by norm_num [CosmicDrifter.c3Stream]) (by norm_num [CosmicDrifter.c3Stream])
      (by norm_num [CosmicDrifter.c3Stream]) (by norm_num [CosmicDrifter.c3Stream])
  have h6 : CosmicDrifter.mapGenUpTo CosmicDrifter.cragPlanet
      CosmicDrifter.trigZero CosmicDrifter.c3Stream 6 =
      ⟨450, some .crags, 25, [450, 450, 450, 450, 450, 450], [some .crags, some .crags, some .crags, some .crags, some .crags, some .crags], [], [], []⟩ := by
    show CosmicDrifter.mapGenStep CosmicDrifter.cragPlanet CosmicDrifter.trigZero
      CosmicDrifter.c3Stream 5 (CosmicDrifter.mapGenUpTo CosmicDrifter.cragPlanet
        CosmicDrifter.trigZero CosmicDrifter.c3Stream 5) = _
    rw [h5]
    exact CosmicDrifter.mapGenStep_crags_quiet _ _ _ _ _ _ _ _ _ _ rfl
      (by omega) (by omega)
      (by norm_num [CosmicDrifter.c3Stream]) (by norm_num [CosmicDrifter.c3Stream])
      (by norm_num [CosmicDrifter.c3Stream]) (by norm_num [CosmicDrifter.c3Stream])
  have h7 : CosmicDrifter.mapGenUpTo CosmicDrifter.cragPlanet
      CosmicDrifter.trigZero CosmicDrifter.c3Stream 7 =
      ⟨450, some .crags, 29, [450, 450, 450, 450, 450, 450, 450], [some .crags, some .crags, some .crags, some .crags, some .crags, some .crags, some .crags], [], [], []⟩ := by
    show CosmicDrifter.mapGenStep CosmicDrifter.cragPlanet CosmicDrifter.trigZero
      CosmicDrifter.c3Stream 6 (CosmicDrifter.mapGenUpTo CosmicDrifter.cragPlanet
        CosmicDrifter.trigZero CosmicDrifter.c3Stream 6) = _
    rw [h6]
    exact CosmicDrifter.mapGenStep_crags_quiet _ _ _ _ _ _ _ _ _ _ rfl
      (by omega) (by omega)
      (by norm_num [CosmicDrifter.c3Stream]) (by norm_num [CosmicDrifter.c3Stream])
      (by norm_num [CosmicDrifter.c3Stream]) (by norm_num [CosmicDrifter.c3Stream])
  have h8 : CosmicDrifter.mapGenUpTo CosmicDrifter.cragPlanet
      CosmicDrifter.trigZero CosmicDrifter.c3Stream 8 =
      ⟨450, some .crags, 33, [450, 450, 450, 450, 450, 450, 450, 450], [some .crags, some .crags, some .crags, some .crags, some .crags, some .crags, some .crags, some .crags], [], [], []⟩ := by
    show CosmicDrifter.mapGenStep CosmicDrifter.cragPlanet CosmicDrifter.trigZero
      CosmicDrifter.c3Stream 7 (CosmicDrifter.mapGenUpTo CosmicDrifter.cragPlanet
        CosmicDrifter.trigZero CosmicDrifter.c3Stream 7) = _
    rw [h7]
    exact CosmicDrifter.mapGenStep_crags_quiet _ _ _ _ _ _ _ _ _ _ rfl
      (by omega) (by omega)
      (by norm_num [CosmicDrifter.c3Stream]) (by norm_num [CosmicDrifter.c3Stream])
      (by norm_num [CosmicDrifter.c3Stream]) (by norm_num [CosmicDrifter.c3Stream])
  have h9 : CosmicDrifter.mapGenUpTo CosmicDrifter.cragPlanet
      CosmicDrifter.trigZero CosmicDrifter.c3Stream 9 =
      ⟨450, some .crags, 37, [450, 450, 450, 450, 450, 450, 450, 450, 450], [some .crags, some .crags, some .crags, some .crags, some .crags, some .crags, some .crags, some .crags, some .crags], [], [], []⟩ := by
    show CosmicDrifter.mapGenStep CosmicDrifter.cragPlanet CosmicDrifter.trigZero
      CosmicDrifter.c3Stream 8 (CosmicDrifter.mapGenUpTo CosmicDrifter.cragPlanet
        CosmicDrifter.trigZero CosmicDrifter.c3Stream 8) = _
    rw [h8]
    exact CosmicDrifter.mapGenStep_crags_quiet _ _ _ _ _ _ _ _ _ _ rfl
      (by omega) (by omega)
      (by norm_num [CosmicDrifter.c3Stream]) (by norm_num [CosmicDrifter.c3Stream])
      (by norm_num [CosmicDrifter.c3Stream]) (by norm_num [CosmicDrifter.c3Stream])
  have h10 : CosmicDrifter.mapGenUpTo CosmicDrifter.cragPlanet
      CosmicDrifter.trigZero CosmicDrifter.c3Stream 10 =
      ⟨450, some .crags, 41, [450, 450, 450, 450, 450, 450, 450, 450, 450, 450], [some .crags, some .crags, some .crags, some .crags, some .crags, some .crags, some .crags, some .crags, some .crags, some .crags], [], [], []⟩ := by
    show CosmicDrifter.mapGenStep CosmicDrifter.cragPlanet CosmicDrifter.trigZero
      CosmicDrifter.c3Stream 9 (CosmicDrifter.mapGenUpTo CosmicDrifter.cragPlanet
        CosmicDrifter.trigZero CosmicDrifter.c3Stream 9) = _
    rw [h9]
    exact CosmicDrifter.mapGenStep_crags_quiet _ _ _ _ _ _ _ _ _ _ rfl
      (by omega) (by omega)
      (by norm_num [CosmicDrifter.c3Stream]) (by norm_num [CosmicDrifter.c3Stream])
      (by norm_num [CosmicDrifter.c3Stream]) (by norm_num [CosmicDrifter.c3Stream])
  have h11 : CosmicDrifter.mapGenUpTo CosmicDrifter.cragPlanet
      CosmicDrifter.trigZero CosmicDrifter.c3Stream 11 =
      ⟨450, some .crags, 45, [450, 450, 450, 450, 450, 450, 450, 450, 450, 450, 450], [some .crags, some .crags, some .crags, some .crags, some .crags, some .crags, some .crags, some .crags, some .crags, some .crags, some .crags], [], [], []⟩ := by
    show CosmicDrifter.mapGenStep CosmicDrifter.cragPlanet CosmicDrifter.trigZero
      CosmicDrifter.c3Stream 10 (CosmicDrifter.mapGenUpTo CosmicDrifter.cragPlanet
        CosmicDrifter.trigZero CosmicDrifter.c3Stream 10) = _
    rw [h10]
    exact CosmicDrifter.mapGenStep_crags_quiet _ _ _ _ _ _ _ _ _ _ rfl
      (by omega) (by omega)
      (by norm_num [CosmicDrifter.c3Stream]) (by norm_num [CosmicDrifter.c3Stream])
      (by norm_num [CosmicDrifter.c3Stream]) (by norm_num [CosmicDrifter.c3Stream])
  have h12 : CosmicDrifter.mapGenUpTo CosmicDrifter.cragPlanet
      CosmicDrifter.trigZero CosmicDrifter.c3Stream 12 =
      ⟨490, some .crags, 47, [450, 450, 450, 450, 450, 450, 450, 450, 450, 450, 450] ++ [490],
        [some .crags, some .crags, some .crags, some .crags, some .crags, some .crags, some .crags, some .crags, some .crags, some .crags, some .crags] ++ [some .crags],
        [] ++ [((11 : ℚ) * 50, .lava)], [], []⟩ := by
    show CosmicDrifter.mapGenStep CosmicDrifter.cragPlanet CosmicDrifter.trigZero
      CosmicDrifter.c3Stream 11 (CosmicDrifter.mapGenUpTo CosmicDrifter.cragPlanet
        CosmicDrifter.trigZero CosmicDrifter.c3Stream 11) = _
    rw [h11]
    exact CosmicDrifter.mapGenStep_crags_hazard _ _ _ _ _ _ _ _ _ _
      (by omega) (by omega)
      (by norm_num [CosmicDrifter.c3Stream]) (by norm_num [CosmicDrifter.c3Stream])
  refine ⟨?_, ?_, ?_, ?_⟩
  · rw [show CosmicDrifter.mapGen CosmicDrifter.cragPlanet CosmicDrifter.trigZero
        CosmicDrifter.c3Stream = CosmicDrifter.mapGenUpTo CosmicDrifter.cragPlanet
        CosmicDrifter.trigZero CosmicDrifter.c3Stream 350 from rfl,
      CosmicDrifter.mapGenUpTo_terrain_getD_stable _ _ _ 12 350 10 (by omega)
        (by omega), h12]
    rfl
  · rw [show CosmicDrifter.mapGen CosmicDrifter.cragPlanet CosmicDrifter.trigZero
        CosmicDrifter.c3Stream = CosmicDrifter.mapGenUpTo CosmicDrifter.cragPlanet
        CosmicDrifter.trigZero CosmicDrifter.c3Stream 350 from rfl,
      CosmicDrifter.mapGenUpTo_terrain_getD_stable _ _ _ 12 350 11 (by omega)
        (by omega), h12]
    rfl
  · rw [show CosmicDrifter.mapGen CosmicDrifter.cragPlanet CosmicDrifter.trigZero
        CosmicDrifter.c3Stream = CosmicDrifter.mapGenUpTo CosmicDrifter.cragPlanet
        CosmicDrifter.trigZero CosmicDrifter.c3Stream 350 from rfl,
      CosmicDrifter.mapGenUpTo_styles_getD_stable _ _ _ 12 350 11 (by omega)
        (by omega), h12]
    rfl
  · rw [show (490 : ℚ) - 450 = 40 from by norm_num,
      abs_of_nonneg (by norm_num : (0 : ℚ) ≤ 40)]
    norm_num [CosmicDrifter.styleBound]

/-- C3 amended: every pair of consecutive height samples differs by at most
the style-specific maximum delta PLUS 42 — 2 for the band nudge and 40 for
the hazard ground-raise, which is applied on top of the style delta and is
what makes the original per-style bound fail. -/
theorem claim_C3_amended_delta_bound (p : CosmicDrifter.PlanetData)
    (trig : CosmicDrifter.TrigOracle) (rnd : ℕ → ℚ)
    (hb : trig.Bounded) (hr : CosmicDrifter.RndInRange rnd) (j : ℕ)
    (hj : j + 1 < (CosmicDrifter.mapGen p trig rnd).terrain.length) :
    |(CosmicDrifter.mapGen p trig rnd).terrain.getD (j+1) 0 -
      (CosmicDrifter.mapGen p trig rnd).terrain.getD j 0| ≤
      CosmicDrifter.styleBound
        ((CosmicDrifter.mapGen p trig rnd).styles.getD (j+1) none) + 42 :=
  (CosmicDrifter.genInv_upTo p trig rnd hb hr 350).2.2.2 j hj

/-- Witness for the amended C3 at a concrete planet, zero trig oracle and
constant stream, on the first consecutive pair. -/
theorem claim_C3_witness :
    CosmicDrifter.TrigOracle.Bounded CosmicDrifter.trigZero ∧
    CosmicDrifter.RndInRange (fun _ => 1/2) ∧
    0 + 1 < (CosmicDrifter.mapGen CosmicDrifter.cragPlanet CosmicDrifter.trigZero
      (fun _ => 1/2)).terrain.length ∧
    |(CosmicDrifter.mapGen CosmicDrifter.cragPlanet CosmicDrifter.trigZero
        (fun _ => 1/2)).terrain.getD 1 0 -
      (CosmicDrifter.mapGen CosmicDrifter.cragPlanet CosmicDrifter.trigZero
        (fun _ => 1/2)).terrain.getD 0 0| ≤
      CosmicDrifter.styleBound
        ((CosmicDrifter.mapGen CosmicDrifter.cragPlanet CosmicDrifter.trigZero
          (fun _ => 1/2)).styles.getD 1 none) + 42 := by
  have hb : CosmicDrifter.TrigOracle.Bounded CosmicDrifter.trigZero :=
    ⟨fun x => by norm_num [CosmicDrifter.trigZero],
     fun x => by norm_num [CosmicDrifter.trigZero]⟩
  have hr : CosmicDrifter.RndInRange (fun _ => 1/2) := fun k => by norm_num
  have hlen : (CosmicDrifter.mapGen CosmicDrifter.cragPlanet CosmicDrifter.trigZero
      (fun _ => 1/2)).terrain.length = 350 :=
    CosmicDrifter.mapGenUpTo_terrain_length _ _ _ 350
  exact ⟨hb, hr, by rw [hlen]; omega,
    claim_C3_amended_delta_bound CosmicDrifter.cragPlanet CosmicDrifter.trigZero
      (fun _ => 1/2) hb hr 0 (by rw [hlen]; omega)⟩
